import Mathlib

/-!
Verification of the OrdoAudio real-time audio analysis engine
(file ordo-audio-lib/ordo-audio.js) against its specification.

Modelling conventions, used throughout:

* JavaScript numbers are modelled as real numbers (type R).  Quantities that
  the source can set to -Infinity (dB values produced by linToDb, LUFS
  values, peak holds) are modelled as extended reals (EReal), with the bottom
  element standing for -Infinity.
* JavaScript division is total on floats; we use the total division of R
  (division by zero yields 0).  Degenerate NaN-producing paths of the source
  are therefore modelled by the corresponding total operations; no claim
  below depends on such a path.
* Mutable per-module state objects become explicit state values threaded
  through the process functions; a state of `none` models the fresh, empty
  object the orchestrator creates on first use.  JavaScript truthiness tests
  on lazily initialised fields are modelled faithfully, including the fact
  that the number 0 is falsy.
* Date.now() is an external input; it is passed as an explicit `now`
  argument where the source reads the clock.
* Result booleans are modelled as propositions, result strings as Lean
  strings.
-/

open Classical

-- ===========================================================================
-- Numeric utility functions (UTILITY FUNCTIONS section of the source)
-- ===========================================================================

/-- Source `linToDb`: convert linear amplitude to dBFS;
non-positive input maps to -Infinity. -/
noncomputable def linToDb (linear : ℝ) : EReal :=
  if 0 < linear then (((20 : ℝ) * Real.logb 10 linear : ℝ) : EReal) else ⊥

/-- Source `dbToLin`: convert dB to linear amplitude. -/
noncomputable def dbToLin (db : ℝ) : ℝ := (10 : ℝ) ^ (db / 20 : ℝ)

/-- Source `clamp`: clamp a value between min and max
(JS: Math.max(min, Math.min(max, val))). -/
noncomputable def clamp (val lo hi : ℝ) : ℝ := max lo (min hi val)

/-- Source `mean`: arithmetic mean of an array (sum / length; empty
array gives 0/0, modelled as 0). -/
noncomputable def mean (arr : List ℝ) : ℝ := arr.sum / arr.length

/-- Source `variance`: population variance of an array.  On the empty
array the JS computes 0/0 = NaN (the mean is NaN, the squared-deviation
sum over no elements is 0, and the final division is 0/0); `none` models
that NaN.  On a nonempty array the value is the real population
variance. -/
noncomputable def variance (arr : List ℝ) : Option ℝ :=
  if arr = [] then none
  else some (((arr.map (fun b => (b - mean arr) ^ 2)).sum) / arr.length)

/-- A strict comparison of a possibly-NaN value (none) against a real
constant, as JavaScript evaluates it: every ordered comparison with NaN
is false. -/
def optLtReal (a : Option ℝ) (r : ℝ) : Prop :=
  match a with
  | some x => x < r
  | none => False

/-- A strict comparison of a real constant against a possibly-NaN value
(none): false when the value is NaN. -/
def optGtReal (a : Option ℝ) (r : ℝ) : Prop :=
  match a with
  | some x => r < x
  | none => False

/-- A strict comparison between two possibly-NaN values: false when
either side is NaN, as in JavaScript. -/
def optLtOpt (a b : Option ℝ) : Prop :=
  match a, b with
  | some x, some y => x < y
  | _, _ => False

/-- Source `circularPush`: push, then evict the oldest element (shift)
if the capacity is exceeded. -/
def circularPush {α : Type} (arr : List α) (val : α) (maxLen : ℕ) : List α :=
  let arr1 := arr ++ [val]
  if maxLen < arr1.length then arr1.tail else arr1

/-- Iterated `circularPush` over a list of values (folding frames in order). -/
def circularPushMany {α : Type} (arr : List α) (vals : List α) (maxLen : ℕ) : List α :=
  vals.foldl (fun acc v => circularPush acc v maxLen) arr

/-- Source `dct`: Discrete Cosine Transform (Type II). -/
noncomputable def dct (input : List ℝ) : List ℝ :=
  let N := input.length
  let scale := Real.pi / N
  (List.range N).map fun k =>
    ((List.range N).map fun n =>
      input.getD n 0 * Real.cos (scale * (n + 0.5) * k)).sum

/-- Source `hzToMel`. -/
noncomputable def hzToMel (hz : ℝ) : ℝ := 2595 * Real.logb 10 (1 + hz / 700)

/-- Source `melToHz`. -/
noncomputable def melToHz (mel : ℝ) : ℝ := 700 * ((10 : ℝ) ^ (mel / 2595 : ℝ) - 1)

/-- Source constant NOTE_NAMES. -/
def NOTE_NAMES : List String :=
  ["C", "C#", "D", "D#", "E", "F"] ++ ["F#", "G", "G#", "A", "A#", "B"]

/-- Source constant MAJOR_PROFILE (Krumhansl-Schmuckler). -/
noncomputable def MAJOR_PROFILE : List ℝ :=
  [6.35, 2.23, 3.48, 2.33, 4.38, 4.09, 2.52, 5.19, 2.39, 3.66, 2.29, 2.88]

/-- Source constant MINOR_PROFILE (Krumhansl-Schmuckler). -/
noncomputable def MINOR_PROFILE : List ℝ :=
  [6.33, 2.68, 3.52, 5.38, 2.60, 3.53, 2.54, 4.75, 3.98, 2.69, 3.34, 3.17]

/-- Source constant ISO_THIRD_OCTAVE_CENTERS. -/
noncomputable def ISO_THIRD_OCTAVE_CENTERS : List ℝ :=
  [20, 25, 31.5, 40, 50, 63, 80, 100, 125, 160,
   200, 250, 315, 400, 500, 630, 800, 1000, 1250, 1600,
   2000, 2500, 3150, 4000, 5000, 6300, 8000, 10000, 12500, 16000, 20000]

/-- Result of the source `hzToNote` helper.  The JS object also carries a
concatenated display `name`; it is the pair (note, octave) rendered as text
and is omitted here as pure presentation. -/
structure NoteInfo where
  note : String
  octave : ℤ
  cents : ℤ
  midi : ℤ

/-- Source `hzToNote`: map a frequency to the nearest musical note.
Real numbers are always finite, so the `!isFinite(freq)` disjunct of the
source guard never fires in the model. -/
noncomputable def hzToNote (freq : ℝ) : NoteInfo :=
  if freq < 20 then ⟨"--", 0, 0, 0⟩
  else
    let midi : ℝ := 12 * Real.logb 2 (freq / 440) + 69
    let midiRounded : ℤ := round midi
    let cents : ℤ := round ((midi - midiRounded) * 100)
    let octave : ℤ := ⌊(midiRounded : ℝ) / 12⌋ - 1
    ⟨NOTE_NAMES.getD (((midiRounded % 12) + 12) % 12).toNat "", octave, cents, midiRounded⟩

/-- Source `correlate`: Pearson correlation of two arrays (indexed over the
length of the first array, exactly as the JS loop is). -/
noncomputable def correlate (a b : List ℝ) : ℝ :=
  let ma := mean a
  let mb := mean b
  let num := ((List.range a.length).map fun i =>
    (a.getD i 0 - ma) * (b.getD i 0 - mb)).sum
  let da := ((List.range a.length).map fun i => (a.getD i 0 - ma) ^ 2).sum
  let db := ((List.range a.length).map fun i => (b.getD i 0 - mb) ^ 2).sum
  let denom := Real.sqrt (da * db)
  if denom = 0 then 0 else num / denom

-- ===========================================================================
-- True Peak module
-- ===========================================================================

/-- Source `TruePeakModule._oversample`: 4x linear-interpolation
oversampling.  The JS loop writes slots 4i .. 4i+3 only for input indices
i with i < length - 1; the remaining slots of the Float32Array keep their
initial value 0. -/
noncomputable def TruePeakModule.oversample (timeData : List ℝ) : List ℝ :=
  (List.range (4 * timeData.length)).map fun j =>
    let i := j / 4
    if i + 1 < timeData.length then
      let a := timeData.getD i 0
      let b := timeData.getD (i + 1) 0
      match j % 4 with
      | 0 => a
      | 1 => a * 0.75 + b * 0.25
      | 2 => a * 0.5 + b * 0.5
      | _ => a * 0.25 + b * 0.75
    else 0

/-- The maximum absolute sample of a block, as computed by the source loop
(`maxSample` starts at 0 and is raised whenever a larger magnitude shows). -/
noncomputable def maxAbsSample (l : List ℝ) : ℝ := l.foldl (fun m v => max m |v|) 0

/-- Persistent state of the true-peak module. -/
structure TruePeakState where
  truePeakHold : EReal

/-- Per-frame result of the true-peak module. -/
structure TruePeakResult where
  truePeak : EReal
  truePeakHold : EReal
  isOver : Prop

/-- Source `TruePeakModule.process`.  The lazy initialisation
`if (!state.truePeakHold) state.truePeakHold = -Infinity` treats both a
missing field and a held value of exactly 0 (dBTP) as falsy, so both are
replaced by -Infinity before the frame is processed; -Infinity itself is
truthy and survives.  `isOver` compares the CURRENT frame true peak with
-1.0 dBTP. -/
noncomputable def TruePeakModule.process (timeData : List ℝ)
    (state : Option TruePeakState) : TruePeakResult × TruePeakState :=
  let hold0 : EReal :=
    match state with
    | none => ⊥
    | some s => if s.truePeakHold = 0 then ⊥ else s.truePeakHold
  let oversampled := TruePeakModule.oversample timeData
  let maxSample := maxAbsSample oversampled
  let truePeakDb := linToDb maxSample
  let hold1 := if hold0 < truePeakDb then truePeakDb else hold0
  (⟨truePeakDb, hold1, (-1 : EReal) < truePeakDb⟩, ⟨hold1⟩)

-- ===========================================================================
-- LUFS loudness module (ITU-R BS.1770 / EBU R128)
-- ===========================================================================

/-- A biquad filter section: coefficients plus the persistent delay taps
x1, x2, y1, y2 (the source stores both in one object). -/
structure Biquad where
  b0 : ℝ
  b1 : ℝ
  b2 : ℝ
  a1 : ℝ
  a2 : ℝ
  x1 : ℝ
  x2 : ℝ
  y1 : ℝ
  y2 : ℝ

/-- Source `LufsModule.createKWeightingFilters`: the two K-weighting stages
(high-frequency shelf pre-filter, then RLB high-pass). -/
noncomputable def LufsModule.createKWeightingFilters (sampleRate : ℝ) :
    Biquad × Biquad :=
  let db : ℝ := 3.99984385397
  let Vh := (10 : ℝ) ^ (db / 20 : ℝ)
  let Vb := Vh ^ (0.4845 : ℝ)
  let f0 : ℝ := 1681.974450955533
  let Q : ℝ := 0.7071752369554196
  let K := Real.tan (Real.pi * f0 / sampleRate)
  let a0pre := 1 + K / Q + K * K
  let preFilter : Biquad :=
    { b0 := (Vh + Vb * K / Q + K * K) / a0pre
      b1 := (2 * (K * K - Vh)) / a0pre
      b2 := (Vh - Vb * K / Q + K * K) / a0pre
      a1 := (2 * (K * K - 1)) / a0pre
      a2 := (1 - K / Q + K * K) / a0pre
      x1 := 0, x2 := 0, y1 := 0, y2 := 0 }
  let f0hp : ℝ := 38.13547087613982
  let Qhp : ℝ := 0.5003270373238773
  let Khp := Real.tan (Real.pi * f0hp / sampleRate)
  let a0hp := 1 + Khp / Qhp + Khp * Khp
  let hpFilter : Biquad :=
    { b0 := 1 / a0hp
      b1 := -2 / a0hp
      b2 := 1 / a0hp
      a1 := (2 * (Khp * Khp - 1)) / a0hp
      a2 := (1 - Khp / Qhp + Khp * Khp) / a0hp
      x1 := 0, x2 := 0, y1 := 0, y2 := 0 }
  (preFilter, hpFilter)

/-- Source `LufsModule.applyBiquad`: filter one sample, returning the output
sample and the mutated filter state. -/
noncomputable def LufsModule.applyBiquad (f : Biquad) (x : ℝ) : ℝ × Biquad :=
  let y := f.b0 * x + f.b1 * f.x1 + f.b2 * f.x2 - f.a1 * f.y1 - f.a2 * f.y2
  (y, { f with x2 := f.x1, x1 := x, y2 := f.y1, y1 := y })

/-- The per-frame filtering loop of `LufsModule.process`: run every sample
through both stages, accumulating the sum of squared outputs; returns the
sum together with the final filter states. -/
noncomputable def LufsModule.filterBlock (pre hp : Biquad) (timeData : List ℝ) :
    ℝ × Biquad × Biquad :=
  timeData.foldl (fun acc x =>
    let p := LufsModule.applyBiquad acc.2.1 x
    let q := LufsModule.applyBiquad acc.2.2 p.1
    (acc.1 + q.1 * q.1, p.2, q.2)) (0, pre, hp)

/-- Persistent state of the LUFS module (the source nests the two filters
inside a `filters` object; they are flattened here).  `blockSamples`,
`sampleAccum` and `meanSquareAccum` are set by the source initialiser but
never read afterwards. -/
structure LufsState where
  preFilter : Biquad
  hpFilter : Biquad
  momentaryBuffer : List ℝ
  shortTermBuffer : List ℝ
  integratedBlocks : List ℝ
  blockSamples : ℤ
  sampleAccum : ℝ
  meanSquareAccum : ℝ
  integratedLufs : EReal

/-- Per-frame result of the LUFS module. -/
structure LufsResult where
  momentary : EReal
  shortTerm : EReal
  integrated : EReal
  lra : ℝ

/-- The state built by the lazy initialiser of `LufsModule.process`. -/
noncomputable def LufsModule.initState (sampleRate : ℝ) : LufsState :=
  { preFilter := (LufsModule.createKWeightingFilters sampleRate).1
    hpFilter := (LufsModule.createKWeightingFilters sampleRate).2
    momentaryBuffer := []
    shortTermBuffer := []
    integratedBlocks := []
    blockSamples := round (0.1 * sampleRate)
    sampleAccum := 0
    meanSquareAccum := 0
    integratedLufs := ⊥ }

/-- The LUFS value of a mean-square energy, as the source ternary computes
it: positive input maps to -0.691 + 10 log10(ms), otherwise -Infinity. -/
noncomputable def lufsOfMs (ms : ℝ) : EReal :=
  if 0 < ms then ((-0.691 + 10 * Real.logb 10 ms : ℝ) : EReal) else ⊥

/-- JS result wrapping `isFinite(v) ? v : -Infinity`: in the model the only
non-finite value that can arise is bottom itself, so this keeps bottom and
finite values unchanged (top is mapped to bottom for completeness). -/
noncomputable def finiteOrNegInf (v : EReal) : EReal := if v = ⊤ then ⊥ else v

/-- The integrated-loudness update of `LufsModule.process`: once any block
has passed the absolute gate, take the ungated mean, derive the relative
gate 10 LU below it, and average the blocks above the relative gate; when
no block qualifies the previous integrated value is kept. -/
noncomputable def LufsModule.integratedUpdate (blocks : List ℝ)
    (prev : EReal) : EReal :=
  if 0 < blocks.length then
    let ungatedLufs : ℝ := -0.691 + 10 * Real.logb 10 (mean blocks)
    let relGate := ungatedLufs - 10
    let gated := blocks.filter
      (fun ms => decide (0 < ms ∧ relGate < -0.691 + 10 * Real.logb 10 ms))
    if 0 < gated.length then
      ((-0.691 + 10 * Real.logb 10 (mean gated) : ℝ) : EReal)
    else prev
  else prev

/-- Source `LufsModule.process`: filter the block, update the 400 ms and 3 s
windows, the gated integrated measurement, and the loudness range. -/
noncomputable def LufsModule.process (timeData : List ℝ)
    (state : Option LufsState) (sampleRate : ℝ) : LufsResult × LufsState :=
  let st0 := state.getD (LufsModule.initState sampleRate)
  let fb := LufsModule.filterBlock st0.preFilter st0.hpFilter timeData
  let blockMeanSquare := fb.1 / timeData.length
  let momentaryBuffer := circularPush st0.momentaryBuffer blockMeanSquare 4
  let momentaryLufs := lufsOfMs (mean momentaryBuffer)
  let shortTermBuffer := circularPush st0.shortTermBuffer blockMeanSquare 30
  let shortTermLufs := lufsOfMs (mean shortTermBuffer)
  let integratedBlocks :=
    if ((-70 : ℝ) : EReal) < momentaryLufs then
      st0.integratedBlocks ++ [blockMeanSquare]
    else st0.integratedBlocks
  let integratedLufs :=
    LufsModule.integratedUpdate integratedBlocks st0.integratedLufs
  let lraBlocks :=
    ((shortTermBuffer.filter (fun ms => decide (0 < ms))).map
      (fun ms => -0.691 + 10 * Real.logb 10 ms)).filter
        (fun l => decide ((-70 : ℝ) < l))
  let lra : ℝ :=
    if 1 < lraBlocks.length then
      let sorted := lraBlocks.insertionSort (· ≤ ·)
      sorted.getD (⌊(sorted.length : ℝ) * 0.95⌋).toNat 0 -
        sorted.getD (⌊(sorted.length : ℝ) * 0.1⌋).toNat 0
    else 0
  ({ momentary := finiteOrNegInf momentaryLufs
     shortTerm := finiteOrNegInf shortTermLufs
     integrated := finiteOrNegInf integratedLufs
     lra := lra },
   { st0 with
     momentaryBuffer := momentaryBuffer
     shortTermBuffer := shortTermBuffer
     integratedBlocks := integratedBlocks
     integratedLufs := integratedLufs })

/-- Fold the LUFS module over a frame sequence from a fresh state,
collecting the per-frame results. -/
noncomputable def LufsModule.run (sampleRate : ℝ) (frames : List (List ℝ)) :
    List LufsResult × Option LufsState :=
  frames.foldl (fun acc frame =>
    let step := LufsModule.process frame acc.2 sampleRate
    (acc.1 ++ [step.1], some step.2)) ([], none)

/-- Spec-side definition (for C2): the loudness values considered by the
loudness-range computation - the values of a short-term window of
mean-square energies, keeping positive energies only, converted to LUFS,
keeping only values strictly above -70 LUFS. -/
noncomputable def gatedShortTermLoudness (buffer : List ℝ) : List ℝ :=
  ((buffer.filter (fun ms => decide (0 < ms))).map
    (fun ms => -0.691 + 10 * Real.logb 10 ms)).filter
      (fun l => decide ((-70 : ℝ) < l))

/-- Spec-side definition (for C2): the spread (high minus low) between the
10th and 95th percentile of a value list sorted ascending, where percentile
p of n sorted values is the entry at index floor(n * p); 0 when fewer than
two values exist. -/
noncomputable def lraSpec (vals : List ℝ) : ℝ :=
  if 1 < vals.length then
    let sorted := vals.insertionSort (· ≤ ·)
    sorted.getD (⌊(sorted.length : ℝ) * 0.95⌋).toNat 0 -
      sorted.getD (⌊(sorted.length : ℝ) * 0.1⌋).toNat 0
  else 0

-- ===========================================================================
-- Clipping module
-- ===========================================================================

/-- Persistent state of the clipping module. -/
structure ClippingState where
  clipHold : ℕ
  peakDb : EReal
  clipCount : ℕ

/-- Per-frame result of the clipping module. -/
structure ClippingResult where
  peakDb : EReal
  allTimePeak : EReal
  isClipping : Prop
  clipLedActive : Prop
  clippedSamples : ℕ
  clipRatio : ℝ
  totalClipEvents : ℕ

/-- Source `ClippingModule.process`.  The lazy initialisers
`if (!state.clipHold) state.clipHold = 0` and
`if (!state.clipCount) state.clipCount = 0` only replace falsy values by
the value they already denote, while `if (!state.peakDb) state.peakDb =
-Infinity` resets a stored all-time peak of exactly 0 dBFS (falsy) to
-Infinity, exactly as modelled below. -/
noncomputable def ClippingModule.process (timeData : List ℝ)
    (state : Option ClippingState) : ClippingResult × ClippingState :=
  let s1 := state.getD ⟨0, ⊥, 0⟩
  let st0 : ClippingState :=
    ⟨s1.clipHold, if s1.peakDb = 0 then ⊥ else s1.peakDb, s1.clipCount⟩
  let maxSample := maxAbsSample timeData
  let clippedSamples := timeData.countP (fun v => decide ((0.9999 : ℝ) ≤ |v|))
  let peakDb := linToDb maxSample
  let peakHold := if st0.peakDb < peakDb then peakDb else st0.peakDb
  let isClipping := ((-0.5 : ℝ) : EReal) < peakDb
  let clipHold1 :=
    if ((-0.5 : ℝ) : EReal) < peakDb then 60
    else if 0 < st0.clipHold then st0.clipHold - 1 else st0.clipHold
  let clipCount1 :=
    if ((-0.5 : ℝ) : EReal) < peakDb then st0.clipCount + 1 else st0.clipCount
  (⟨peakDb, peakHold, isClipping, 0 < clipHold1, clippedSamples,
    (clippedSamples : ℝ) / timeData.length, clipCount1⟩,
   ⟨clipHold1, peakHold, clipCount1⟩)

/-- Fold the clipping module over a frame sequence from a fresh state. -/
noncomputable def ClippingModule.run (frames : List (List ℝ)) :
    List ClippingResult × Option ClippingState :=
  frames.foldl (fun acc frame =>
    let step := ClippingModule.process frame acc.2
    (acc.1 ++ [step.1], some step.2)) ([], none)

/-- Invariant for the all-silence run (C3): both filters have zeroed delay
taps, every buffered block energy is 0, no block ever passed the absolute
gate, and the integrated loudness is still -Infinity. -/
def Biquad.zeroState (f : Biquad) : Prop :=
  f.x1 = 0 ∧ f.x2 = 0 ∧ f.y1 = 0 ∧ f.y2 = 0

/-- Silence invariant on a LUFS state (see C3). -/
def LufsStateSilent (s : LufsState) : Prop :=
  s.preFilter.zeroState ∧ s.hpFilter.zeroState ∧
  (∀ b ∈ s.momentaryBuffer, b = 0) ∧ (∀ b ∈ s.shortTermBuffer, b = 0) ∧
  s.integratedBlocks = [] ∧ s.integratedLufs = ⊥

/-- Silence invariant lifted to the optional (lazily created) state. -/
def LufsOptSilent : Option LufsState → Prop
  | none => True
  | some s => LufsStateSilent s

/-- Silence invariant on a clipping state (see C3): no hold, no events,
all-time peak still -Infinity. -/
def ClippingStateSilent (s : ClippingState) : Prop :=
  s.clipHold = 0 ∧ s.peakDb = ⊥ ∧ s.clipCount = 0

/-- Silence invariant lifted to the optional clipping state. -/
def ClippingOptSilent : Option ClippingState → Prop
  | none => True
  | some s => ClippingStateSilent s

-- ===========================================================================
-- YIN pitch module
-- ===========================================================================

/-- Step 1 of the source `PitchModule.process`: the squared-difference
function over lags, indexed exactly as the JS double loop
(both j and tau range below halfBuffer = floor(length / 2)). -/
noncomputable def PitchModule.diff (timeData : List ℝ) (tau : ℕ) : ℝ :=
  ((List.range (timeData.length / 2)).map fun j =>
    let delta := timeData.getD j 0 - timeData.getD (j + tau) 0
    delta * delta).sum

/-- Step 2: the cumulative mean normalised difference function, with
CMNDF(0) = 1 and CMNDF(tau) = diff(tau) / ((1/tau) * sum of diff(1..tau)).
When the running sum is zero - a constant or silent frame - every summand
diff(1..tau) is zero (each is a sum of squares), hence diff(tau) itself is
zero and the JS computes 0/0 = NaN; `none` models that NaN. -/
noncomputable def PitchModule.cmndf (timeData : List ℝ) (tau : ℕ) :
    Option ℝ :=
  if tau = 0 then some 1
  else
    let runningSum :=
      ((List.range tau).map fun t => PitchModule.diff timeData (t + 1)).sum
    if runningSum = 0 then none
    else
      some (PitchModule.diff timeData tau / ((1 / (tau : ℝ)) * runningSum))

/-- The inner while loop of step 3: starting from a lag below the
threshold, walk forward while the CMNDF keeps strictly decreasing (fuel
bounds the walk; the callers pass halfBuffer, which is ample since the lag
increases with every step and stays below halfBuffer).  The comparison is
false whenever either CMNDF value is NaN, as in JS. -/
noncomputable def PitchModule.walkDown (c : ℕ → Option ℝ) (hb : ℕ) :
    ℕ → ℕ → ℕ
  | 0, tau => tau
  | fuel + 1, tau =>
    if tau + 1 < hb ∧ optLtOpt (c (tau + 1)) (c tau) then
      PitchModule.walkDown c hb fuel (tau + 1)
    else tau

/-- The scan of step 3: the first lag in [2, halfBuffer) whose CMNDF is a
real value strictly below the threshold (a NaN CMNDF never compares
below anything). -/
noncomputable def PitchModule.firstBelow (c : ℕ → Option ℝ) (hb : ℕ)
    (θ : ℝ) : Option ℕ :=
  (List.range' 2 (hb - 2)).find? (fun tau => decide (optLtReal (c tau) θ))

/-- Source step 3 and the fallback: the chosen (unrefined) lag; `none`
models the JS sentinel -1.  When the threshold scan hits, the walk lands
on the local minimum; otherwise the global minimum over [2, halfBuffer)
among the non-NaN CMNDF values is taken (first occurrence wins, as with
the strict JS comparison; a NaN value satisfies neither
`cmndf[tau] < Infinity` nor `cmndf[tau] < minVal`, so on a frame whose
CMNDF is NaN at every lag - or when halfBuffer <= 2 - the sentinel
survives). -/
noncomputable def PitchModule.tauEstimate (c : ℕ → Option ℝ) (hb : ℕ)
    (θ : ℝ) : Option ℕ :=
  match PitchModule.firstBelow c hb θ with
  | some tau => some (PitchModule.walkDown c hb hb tau)
  | none =>
    (List.range' 2 (hb - 2)).foldl (fun best tau =>
      match best with
      | none => if (c tau).isSome then some tau else none
      | some b => if optLtOpt (c tau) (c b) then some tau else some b) none

/-- Step 4: parabolic interpolation around the chosen lag for sub-sample
accuracy.  A sentinel lag stays -1 (so the frequency guard below yields 0)
and boundary lags are left unrefined, exactly as in the source.  `none`
collapses the degenerate JS outcomes in which betterTau is NaN or
±Infinity: a NaN neighbour CMNDF entering the arithmetic, or a zero
parabola denominator (x/0 being ±Infinity for x ≠ 0 and NaN for 0/0).
In every one of those outcomes the source reports frequency 0
(NaN > 0 is false, -Infinity > 0 is false, and sampleRate / Infinity
is 0), which is exactly what the `none` branch of the frequency
computation below yields. -/
noncomputable def PitchModule.refineTau (c : ℕ → Option ℝ) (hb : ℕ)
    (te : Option ℕ) : Option ℝ :=
  match te with
  | none => some (-1)
  | some tau =>
    if 0 < tau ∧ tau < hb - 1 then
      match c (tau - 1), c tau, c (tau + 1) with
      | some s0, some s1, some s2 =>
        if 2 * (2 * s1 - s2 - s0) = 0 then none
        else some ((tau : ℝ) + (s2 - s0) / (2 * (2 * s1 - s2 - s0)))
      | _, _, _ => none
    else some (tau : ℝ)

/-- Per-frame result of the pitch module. -/
structure PitchResult where
  frequency : ℝ
  rawFrequency : ℝ
  confidence : Option ℝ
  note : NoteInfo

/-- Source `PitchModule.process` (YIN), assembled from the step functions
above; the returned `frequency` is zeroed unless confidence exceeds 0.5,
while `rawFrequency` and the note are computed from the refined lag
unconditionally.  The confidence is `Option`-valued because the JS
expression clamp(1 - cmndf[tauEstimate]) would be NaN on a NaN CMNDF; a
chosen lag in fact always carries a real CMNDF value (both the threshold
scan and the fallback only ever select such lags - proved below), so the
`none` branch is unreachable, but it is written out faithfully. -/
noncomputable def PitchModule.process (timeData : List ℝ) (sampleRate : ℝ)
    (threshold : ℝ) : PitchResult :=
  let hb := timeData.length / 2
  let c := PitchModule.cmndf timeData
  let te := PitchModule.tauEstimate c hb threshold
  let betterTau := PitchModule.refineTau c hb te
  let frequency :=
    match betterTau with
    | some b => if 0 < b then sampleRate / b else 0
    | none => 0
  let confidence : Option ℝ :=
    match te with
    | none => some 0
    | some tau =>
      if 0 < tau then
        match c tau with
        | some v => some (clamp (1 - v) 0 1)
        | none => none
      else some 0
  { frequency := if optGtReal confidence 0.5 then frequency else 0
    rawFrequency := frequency
    confidence := confidence
    note := hzToNote frequency }

-- ===========================================================================
-- Onset / BPM module
-- ===========================================================================

/-- Persistent state of the onset module. -/
structure OnsetState where
  prevFreqData : List ℝ
  onsetTimes : List ℝ
  lastOnsetFrame : ℕ
  frameCount : ℕ
  bpmHistory : List ℝ
  bpm : ℝ
  fluxHistory : List ℝ

/-- Per-frame result of the onset module. -/
structure OnsetResult where
  flux : ℝ
  isOnset : Prop
  bpm : ℤ
  bpmRaw : ℝ
  confidence : Option ℝ

/-- The state built by the lazy initialisers of `OnsetModule.process`
(`prevFreqData` is a zero Float32Array of the current spectrum length; the
separate `fluxHistory` initialiser also runs on the first call). -/
noncomputable def OnsetModule.initState (len : ℕ) : OnsetState :=
  ⟨List.replicate len 0, [], 0, 0, [], 0, []⟩

/-- The spectral-flux loop of `OnsetModule.process`: sum of the positive
frame-to-frame magnitude increases. -/
noncomputable def OnsetModule.fluxOf (freqData prev : List ℝ) : ℝ :=
  ((List.range freqData.length).map fun i =>
    let d := freqData.getD i 0 - prev.getD i 0
    if 0 < d then d else 0).sum

/-- The body of the `if (isOnset)` block of the source: push the onset
timestamp (capacity 16) and, once at least 4 timestamps exist, average the
inter-onset intervals; a plausible average (between 200 and 2000 ms) is
converted to BPM, smoothed through the 8-slot history, and the smoothed
mean becomes the current BPM.  (The caller updates `prevFreqData`,
`frameCount`, `lastOnsetFrame` and `fluxHistory`.) -/
noncomputable def OnsetModule.onsetUpdate (st0 : OnsetState) (now : ℝ) :
    OnsetState :=
  let onsetTimes1 := circularPush st0.onsetTimes now 16
  if 4 ≤ onsetTimes1.length then
    let intervals := (List.range (onsetTimes1.length - 1)).map fun i =>
      onsetTimes1.getD (i + 1) 0 - onsetTimes1.getD i 0
    let avgInterval := mean intervals
    if 200 < avgInterval ∧ avgInterval < 2000 then
      let bpmHistory1 := circularPush st0.bpmHistory (60000 / avgInterval) 8
      { st0 with
        onsetTimes := onsetTimes1
        bpmHistory := bpmHistory1
        bpm := mean bpmHistory1 }
    else { st0 with onsetTimes := onsetTimes1 }
  else { st0 with onsetTimes := onsetTimes1 }

/-- Source `OnsetModule.process`: spectral flux against an adaptive
threshold (1.5x the rolling 20-frame mean flux, including the current
flux), a minimum onset gap of round(0.25 * sampleRate / fftSize) frames,
and BPM bookkeeping on each onset.  `now` models Date.now(). -/
noncomputable def OnsetModule.process (freqData : List ℝ)
    (state : Option OnsetState) (sampleRate : ℝ) (fftSize : ℕ) (now : ℝ) :
    OnsetResult × OnsetState :=
  let st0 := state.getD (OnsetModule.initState freqData.length)
  let flux := OnsetModule.fluxOf freqData st0.prevFreqData
  let frameCount1 := st0.frameCount + 1
  let fluxHistory1 := circularPush st0.fluxHistory flux 20
  let minOnsetGap : ℤ := round ((0.25 : ℝ) * sampleRate / (fftSize : ℝ))
  let isOnset := mean fluxHistory1 * 1.5 < flux ∧
      minOnsetGap < (frameCount1 : ℤ) - (st0.lastOnsetFrame : ℤ)
  let st1 : OnsetState :=
    if isOnset then
      { OnsetModule.onsetUpdate st0 now with
        prevFreqData := freqData
        frameCount := frameCount1
        lastOnsetFrame := frameCount1
        fluxHistory := fluxHistory1 }
    else
      { st0 with
        prevFreqData := freqData
        frameCount := frameCount1
        fluxHistory := fluxHistory1 }
  ({ flux := flux, isOnset := isOnset, bpm := round st1.bpm,
     bpmRaw := st1.bpm,
     confidence :=
       if 4 < st1.onsetTimes.length then
         match variance st1.bpmHistory with
         | some v => some (clamp (1 - v / 100) 0 1)
         | none => none
       else some 0 }, st1)

/-- Fold the onset module over a list of (spectrum, timestamp) inputs,
returning the final state. -/
noncomputable def OnsetModule.runState (sampleRate : ℝ) (fftSize : ℕ)
    (inputs : List (List ℝ × ℝ)) (st : Option OnsetState) :
    Option OnsetState :=
  inputs.foldl
    (fun acc inp => some (OnsetModule.process inp.1 acc sampleRate fftSize inp.2).2)
    st

-- ===========================================================================
-- THD module
-- ===========================================================================

/-- One harmonic entry of the THD result. -/
structure ThdHarmonic where
  harmonic : ℕ
  freq : ℝ
  power : ℝ
  db : EReal

/-- The fields the source THD result carries ONLY on the valid-fundamental
path: the raw (unclamped) THD percentage rendered into `thdString`, and the
fundamental power.  The neutral early return `{ thd: 0, harmonics: [] }`
carries neither - hence `extra` is an Option at the result level. -/
structure ThdExtra where
  thdRaw : ℝ
  fundamentalPower : ℝ

/-- Per-call result of the THD module. -/
structure ThdResult where
  thd : ℝ
  harmonics : List ThdHarmonic
  extra : Option ThdExtra

/-- Source `getBinPower` (local helper of `ThdModule.process`): sum the
linear power of the bins within two bins of the rounded target bin,
clamped to the spectrum; a target bin outside the spectrum yields 0. -/
noncomputable def ThdModule.getBinPower (freqData : List ℝ) (binHz : ℝ)
    (targetHz : ℝ) : ℝ :=
  let bin : ℤ := round (targetHz / binHz)
  if bin < 0 ∨ (freqData.length : ℤ) ≤ bin then 0
  else
    ((List.range freqData.length).map fun (i : ℕ) =>
      if max 0 (bin - 2) ≤ (i : ℤ) ∧
          (i : ℤ) ≤ min ((freqData.length : ℤ) - 1) (bin + 2) then
        (10 : ℝ) ^ (freqData.getD i 0 / 10 : ℝ)
      else 0).sum

/-- The harmonics loop of `ThdModule.process`: harmonics 2..8, stopping at
the Nyquist frequency (the JS `break`). -/
noncomputable def ThdModule.harmonicList (freqData : List ℝ)
    (sampleRate : ℝ) (fftSize : ℕ) (fundamentalHz : ℝ) : List ThdHarmonic :=
  let binHz := sampleRate / (fftSize : ℝ)
  (([2, 3, 4, 5, 6, 7, 8] : List ℕ).takeWhile
    (fun (n : ℕ) => decide (fundamentalHz * (n : ℝ) ≤ sampleRate / 2))).map fun (n : ℕ) =>
      let harmonicHz := fundamentalHz * (n : ℝ)
      let power := ThdModule.getBinPower freqData binHz harmonicHz
      ⟨n, harmonicHz, power, linToDb (Real.sqrt power)⟩

/-- Source `ThdModule.process`: the guard `!fundamentalHz ||
fundamentalHz < 20` (a fundamental of 0 is falsy) returns the bare neutral
record; otherwise THD% = 100 * sqrt(harmonic power sum / fundamental
power), clamped to [0,100], with the raw value and fundamental power in
the extra fields. -/
noncomputable def ThdModule.process (freqData : List ℝ) (sampleRate : ℝ)
    (fftSize : ℕ) (fundamentalHz : ℝ) : ThdResult :=
  if fundamentalHz = 0 ∨ fundamentalHz < 20 then ⟨0, [], none⟩
  else
    let binHz := sampleRate / (fftSize : ℝ)
    let fundamentalPower := ThdModule.getBinPower freqData binHz fundamentalHz
    let harmonics := ThdModule.harmonicList freqData sampleRate fftSize
      fundamentalHz
    let harmonicPowerSum := (harmonics.map (fun h => h.power)).sum
    let thd := if 0 < fundamentalPower then
        Real.sqrt (harmonicPowerSum / fundamentalPower) * 100
      else 0
    ⟨clamp thd 0 100, harmonics, some ⟨thd, fundamentalPower⟩⟩

-- ===========================================================================
-- MFCC module
-- ===========================================================================

/-- Source `MfccModule._buildMelFilterbank`: numFilters (default 26)
triangular filters between fMin (20 Hz) and fMax (8000 Hz); mel-spaced
boundary points are mapped back to FFT bins by
floor((fftSize + 1) * hz / sampleRate), and each filter rises over
[bin(m-1), bin(m)] and falls over [bin(m), bin(m+1)] (the rising branch
wins on the shared bin, as in the JS if/else-if). -/
noncomputable def MfccModule.buildMelFilterbank (sampleRate : ℝ)
    (fftSize : ℕ) (numFilters : ℕ := 26) (fMin : ℝ := 20)
    (fMax : ℝ := 8000) : List (List ℝ) :=
  let numBins := fftSize / 2
  let melMin := hzToMel fMin
  let melMax := hzToMel fMax
  let melPoints := (List.range (numFilters + 2)).map fun (i : ℕ) =>
    melToHz (melMin + ((i : ℝ) * (melMax - melMin)) / ((numFilters : ℝ) + 1))
  let binPoints : List ℤ :=
    melPoints.map fun hz => ⌊((fftSize : ℝ) + 1) * hz / sampleRate⌋
  (List.range numFilters).map fun (m0 : ℕ) =>
    let m := m0 + 1
    let bLo := binPoints.getD (m - 1) 0
    let bMid := binPoints.getD m 0
    let bHi := binPoints.getD (m + 1) 0
    (List.range numBins).map fun (k : ℕ) =>
      if bLo ≤ (k : ℤ) ∧ (k : ℤ) ≤ bMid then
        ((k : ℝ) - (bLo : ℝ)) / ((bMid : ℝ) - (bLo : ℝ))
      else if bMid ≤ (k : ℤ) ∧ (k : ℤ) ≤ bHi then
        ((bHi : ℝ) - (k : ℝ)) / ((bHi : ℝ) - (bMid : ℝ))
      else 0

/-- The filterbank a call of `MfccModule.process` actually applies: the
module-level `_melFilterbank` cache if already set (from whatever call
first set it), else the bank freshly built for THIS call's sample rate and
FFT size. -/
noncomputable def MfccModule.appliedFilterbank
    (cache : Option (List (List ℝ))) (sampleRate : ℝ) (fftSize : ℕ) :
    List (List ℝ) :=
  cache.getD (MfccModule.buildMelFilterbank sampleRate fftSize)

/-- Per-call result of the MFCC module. -/
structure MfccResult where
  mfcc : List ℝ
  numCoeffs : ℕ

/-- Source `MfccModule.process`.  The module-level mutable `_melFilterbank`
cache is threaded explicitly: the applied bank is returned as the new
cache value (the source leaves the cache untouched once set - it is keyed
on nothing, NOT on the (sampleRate, fftSize) pair). -/
noncomputable def MfccModule.process (cache : Option (List (List ℝ)))
    (freqData : List ℝ) (sampleRate : ℝ) (fftSize : ℕ) (numCoeffs : ℕ) :
    MfccResult × List (List ℝ) :=
  let bank := MfccModule.appliedFilterbank cache sampleRate fftSize
  let power := freqData.map fun db => (10 : ℝ) ^ (db / 10 : ℝ)
  let melEnergies := bank.map fun filter =>
    Real.log (max 1e-10 (((List.range freqData.length).map fun (k : ℕ) =>
      filter.getD k 0 * power.getD k 0).sum))
  let allCoeffs := dct melEnergies
  ({ mfcc := allCoeffs.take numCoeffs, numCoeffs := numCoeffs }, bank)

/-- Fold the MFCC module over a list of (spectrum, sampleRate, fftSize)
calls, collecting the filterbank applied on each call. -/
noncomputable def MfccModule.runCalls (calls : List (List ℝ × ℝ × ℕ))
    (cache : Option (List (List ℝ))) :
    List (List (List ℝ)) × Option (List (List ℝ)) :=
  calls.foldl (fun acc c =>
    let step := MfccModule.process acc.2 c.1 c.2.1 c.2.2 13
    (acc.1 ++ [step.2], some step.2)) ([], cache)

-- ===========================================================================
-- Extended-real helpers for modules whose JS arithmetic mixes -Infinity
-- ===========================================================================

/-- JS division of a possibly-infinite dB value by a positive count
(array length): -Infinity stays -Infinity. -/
noncomputable def edivNat (x : EReal) (n : ℕ) : EReal :=
  if x = ⊥ then ⊥ else if x = ⊤ then ⊤ else ((x.toReal / n : ℝ) : EReal)

/-- JS division of a possibly-infinite value by a positive real constant. -/
noncomputable def edivReal (x : EReal) (r : ℝ) : EReal :=
  if x = ⊥ then ⊥ else if x = ⊤ then ⊤ else ((x.toReal / r : ℝ) : EReal)

/-- JS Math.abs on extended reals. -/
noncomputable def eabs (x : EReal) : EReal := max x (-x)

/-- JS clamp on extended reals. -/
noncomputable def eclamp (v lo hi : EReal) : EReal := max lo (min hi v)

/-- Mean of a list of extended reals, as the JS
`arr.reduce((a,b)=>a+b,0)/arr.length` computes it (a -Infinity entry makes
the mean -Infinity). -/
noncomputable def emean (l : List EReal) : EReal := edivNat l.sum l.length

-- ===========================================================================
-- RTA module
-- ===========================================================================

/-- One band of the RTA result. -/
structure RtaBand where
  center : ℝ
  db : ℝ
  normalized : ℝ

/-- Per-frame result of the RTA module. -/
structure RtaResult where
  bands : List RtaBand

/-- Source `RtaModule.process`: 31 ISO third-octave bands; each averages
linear power over the FFT bins between the band edges (clamped to the
spectrum), 10 log10 of the average (or -100 for an empty band), and a
normalisation of (db + 100) / 100 clamped to [0,1]. -/
noncomputable def RtaModule.process (freqData : List ℝ) (sampleRate : ℝ)
    (fftSize : ℕ) : RtaResult :=
  let binHz := sampleRate / (fftSize : ℝ)
  ⟨ISO_THIRD_OCTAVE_CENTERS.map fun center =>
    let low := center / (2 : ℝ) ^ ((1 : ℝ) / 6)
    let high := center * (2 : ℝ) ^ ((1 : ℝ) / 6)
    let binLow : ℤ := max 0 ⌊low / binHz⌋
    let binHigh : ℤ := min ((freqData.length : ℤ) - 1) ⌈high / binHz⌉
    let idx := (List.range freqData.length).filter
      (fun (i : ℕ) => decide (binLow ≤ (i : ℤ) ∧ (i : ℤ) ≤ binHigh))
    let energySum := (idx.map fun i => (10 : ℝ) ^ (freqData.getD i 0 / 10 : ℝ)).sum
    let count := idx.length
    let avgDb := if 0 < count then 10 * Real.logb 10 (energySum / count)
      else -100
    ⟨center, avgDb, clamp ((avgDb + 100) / 100) 0 1⟩⟩

-- ===========================================================================
-- Spectral features module
-- ===========================================================================

/-- Per-frame result of the spectral-features module. -/
structure SpectralResult where
  centroid : ℝ
  flatness : ℝ
  rolloff : ℝ
  bandwidth : ℝ
  totalEnergy : ℝ

/-- Source `SpectralFeaturesModule.process`: centroid, Wiener-entropy
flatness, 85%-energy rolloff and bandwidth, all over bins 1..N-1 of the
linear magnitudes 10^(dB/20). -/
noncomputable def SpectralFeaturesModule.process (freqData : List ℝ)
    (sampleRate : ℝ) (fftSize : ℕ) : SpectralResult :=
  let binHz := sampleRate / (fftSize : ℝ)
  let N := freqData.length
  let mags := freqData.map fun db => (10 : ℝ) ^ (db / 20 : ℝ)
  let powerAt := fun (i : ℕ) => mags.getD i 0 * mags.getD i 0
  let idx := (List.range N).drop 1
  let totalEnergy := (idx.map powerAt).sum
  let weightedFreqSum := (idx.map fun (i : ℕ) => ((i : ℝ) * binHz) * powerAt i).sum
  let geometricMeanLog :=
    (idx.map fun (i : ℕ) => Real.log (max 1e-10 (powerAt i))).sum
  let centroid := if 0 < totalEnergy then weightedFreqSum / totalEnergy else 0
  let geometricMean := Real.exp (geometricMeanLog / ((N : ℝ) - 1))
  let arithmeticMean := totalEnergy / ((N : ℝ) - 1)
  let flatness := if 0 < arithmeticMean then
      clamp (geometricMean / arithmeticMean) 0 1
    else 0
  let threshold := 0.85 * totalEnergy
  let rolloffHz :=
    match idx.find? (fun i => decide (threshold ≤
        (((List.range (i + 1)).drop 1).map powerAt).sum)) with
    | some i => (i : ℝ) * binHz
    | none => 0
  let bandwidthSum :=
    (idx.map fun (i : ℕ) => ((i : ℝ) * binHz - centroid) ^ 2 * powerAt i).sum
  let bandwidth := if 0 < totalEnergy then Real.sqrt (bandwidthSum / totalEnergy)
    else 0
  ⟨centroid, flatness, rolloffHz, bandwidth, totalEnergy⟩

-- ===========================================================================
-- Dynamics module
-- ===========================================================================

/-- Persistent state of the dynamics module. -/
structure DynamicsState where
  rmsHistory : List EReal
  peakHistory : List EReal

/-- Per-frame result of the dynamics module. -/
structure DynamicsResult where
  rmsDb : EReal
  peakDb : EReal
  crestFactor : EReal
  dynamicRange : EReal
  compressionAmount : EReal

/-- Source `DynamicsModule.process`: per-frame RMS and peak in dB, crest
factor, 300-frame histories, dynamic-range score as the difference of the
history means, and a compression estimate clamp(1 - |drScore| / 20, 0, 1). -/
noncomputable def DynamicsModule.process (timeData : List ℝ)
    (state : Option DynamicsState) : DynamicsResult × DynamicsState :=
  let st0 := state.getD ⟨[], []⟩
  let sumSquares := (timeData.map fun v => v * v).sum
  let peak := maxAbsSample timeData
  let rms := Real.sqrt (sumSquares / timeData.length)
  let rmsDb := linToDb rms
  let peakDb := linToDb peak
  let crestFactor : EReal := if 0 < rms then peakDb - rmsDb else 0
  let rmsHistory1 := circularPush st0.rmsHistory rmsDb 300
  let peakHistory1 := circularPush st0.peakHistory peakDb 300
  let drScore : EReal := if 10 < rmsHistory1.length then
      emean peakHistory1 - emean rmsHistory1
    else 0
  ({ rmsDb := rmsDb, peakDb := peakDb, crestFactor := eabs crestFactor,
     dynamicRange := eabs drScore,
     compressionAmount := eclamp ((1 : EReal) - edivReal (eabs drScore) 20) 0 1 },
   ⟨rmsHistory1, peakHistory1⟩)

-- ===========================================================================
-- ZCR module
-- ===========================================================================

/-- Per-frame result of the zero-crossing-rate module. -/
structure ZcrResult where
  zcr : ℝ
  type : String

/-- Source `ZcrModule.process`: count sign changes between consecutive
samples, normalise by twice the frame duration, classify. -/
noncomputable def ZcrModule.process (timeData : List ℝ) (sampleRate : ℝ) :
    ZcrResult :=
  let crossings := (((List.range timeData.length).drop 1).filter
    (fun (i : ℕ) => decide (¬ ((0 ≤ timeData.getD (i - 1) 0) ↔
      (0 ≤ timeData.getD i 0))))).length
  let zcr := (crossings : ℝ) / (2 * ((timeData.length : ℝ) / sampleRate))
  ⟨zcr, if 3000 < zcr then "noisy" else if 1000 < zcr then "mixed"
    else "tonal"⟩

-- ===========================================================================
-- DC offset module
-- ===========================================================================

/-- Per-frame result of the DC-offset module. -/
structure DcOffsetResult where
  dcOffset : ℝ
  dcOffsetDb : EReal
  hasIssue : Prop
  severity : String

/-- Source `DcOffsetModule.process`. -/
noncomputable def DcOffsetModule.process (timeData : List ℝ) :
    DcOffsetResult :=
  let avg := mean timeData
  ⟨avg, linToDb |avg|, 0.005 < |avg|,
   if 0.02 < |avg| then "critical" else if 0.005 < |avg| then "warning"
   else "ok"⟩

-- ===========================================================================
-- Phase module
-- ===========================================================================

/-- Per-frame result of the phase-correlation module. -/
structure PhaseResult where
  correlation : ℝ
  monoCompatible : Prop
  phaseString : String
  width : ℝ

/-- Source `PhaseModule.process`: trivial perfect-correlation result in
the mono case (the orchestrator always passes null as the right channel);
normalised cross-correlation otherwise. -/
noncomputable def PhaseModule.process (timeData : List ℝ)
    (rightChannel : Option (List ℝ)) : PhaseResult :=
  match rightChannel with
  | none => ⟨1.0, True, "Mono", 0⟩
  | some right =>
    let dotProduct := ((List.range timeData.length).map fun (i : ℕ) =>
      timeData.getD i 0 * right.getD i 0).sum
    let leftPower := ((List.range timeData.length).map fun (i : ℕ) =>
      timeData.getD i 0 * timeData.getD i 0).sum
    let rightPower := ((List.range timeData.length).map fun (i : ℕ) =>
      right.getD i 0 * right.getD i 0).sum
    let denom := Real.sqrt (leftPower * rightPower)
    let correlation := if 0 < denom then dotProduct / denom else 0
    ⟨clamp correlation (-1) 1, -0.5 < correlation,
     if 0.8 < correlation then "Mono-ish"
     else if 0 < correlation then "Wide" else "Out-of-Phase!",
     clamp (1 - correlation) 0 2⟩

-- ===========================================================================
-- Chromagram module
-- ===========================================================================

/-- Per-frame result of the chromagram / key-estimation module. -/
structure ChromaResult where
  chroma : List ℝ
  key : String
  mode : String
  keyString : String
  confidence : ℝ

/-- The chroma accumulation loop of `ChromagramModule.process`: per pitch
class, the sum of the linear energies of the bins (1..N-1, 20 Hz-20 kHz)
whose rounded MIDI number falls in that class. -/
noncomputable def ChromagramModule.chromaVec (freqData : List ℝ)
    (sampleRate : ℝ) (fftSize : ℕ) : List ℝ :=
  let binHz := sampleRate / (fftSize : ℝ)
  (List.range 12).map fun (pc : ℕ) =>
    (((List.range freqData.length).drop 1).map fun (i : ℕ) =>
      let freq := (i : ℝ) * binHz
      if 20 ≤ freq ∧ freq ≤ 20000 ∧
          (round (12 * Real.logb 2 (freq / 440) + 69) % 12 + 12) % 12
            = (pc : ℤ) then
        (10 : ℝ) ^ (freqData.getD i 0 / 10 : ℝ)
      else 0).sum

/-- Source `ChromagramModule.process`: normalise the chroma vector by its
maximum (the entries are non-negative, so folding max from 0 agrees with
JS Math.max over the 12 entries), then Krumhansl-Schmuckler key search
over the 12 rotations, major checked before minor with strict
improvement; the initial best correlation -Infinity is modelled by the
`none` accumulator. -/
noncomputable def ChromagramModule.process (freqData : List ℝ)
    (sampleRate : ℝ) (fftSize : ℕ) : ChromaResult :=
  let chroma0 := ChromagramModule.chromaVec freqData sampleRate fftSize
  let maxEnergy := chroma0.foldr max 0
  let chroma := if 0 < maxEnergy then chroma0.map (fun v => v / maxEnergy)
    else chroma0
  let best := (List.range 12).foldl
    (fun (acc : Option ℝ × ℕ × String) (root : ℕ) =>
      let rotated := chroma.rotate root
      let majorCorr := correlate rotated MAJOR_PROFILE
      let minorCorr := correlate rotated MINOR_PROFILE
      let acc1 := match acc.1 with
        | none => (some majorCorr, root, "major")
        | some b => if b < majorCorr then (some majorCorr, root, "major")
            else acc
      match acc1.1 with
      | none => (some minorCorr, root, "minor")
      | some b => if b < minorCorr then (some minorCorr, root, "minor")
          else acc1)
    (none, 0, "major")
  let bestCorr := best.1.getD 0
  let keyName := NOTE_NAMES.getD best.2.1 ""
  ⟨chroma, keyName, best.2.2, keyName ++ " " ++ best.2.2,
   clamp bestCorr 0 1⟩

-- ===========================================================================
-- SNR module
-- ===========================================================================

/-- Persistent state of the SNR module. -/
structure SnrState where
  noiseFloorEstimate : Option ℝ
  noiseFrames : List ℝ
  calibrating : Bool
  calibrationFrames : ℕ

/-- Per-frame result of the SNR module (the calibration-phase return
carries no snr/noiseFloor/signalLevel values). -/
structure SnrResult where
  snr : Option ℝ
  calibrating : Bool
  noiseFloor : Option ℝ
  signalLevel : Option ℝ

/-- Source `SnrModule.process`.  The lazy initialiser
`if (!state.noiseFloorEstimate)` re-runs whenever the estimate is unset or
zero (null and 0 are falsy) - in particular on every calibration frame,
since the estimate stays null throughout calibration. -/
noncomputable def SnrModule.process (freqData : List ℝ)
    (state : Option SnrState) : SnrResult × SnrState :=
  let s1 := state.getD ⟨none, [], true, 30⟩
  let st0 : SnrState :=
    if s1.noiseFloorEstimate = none ∨ s1.noiseFloorEstimate = some 0 then
      ⟨none, [], true, 30⟩
    else s1
  let avgPower := mean (freqData.map fun db => (10 : ℝ) ^ (db / 10 : ℝ))
  if st0.calibrating ∧ st0.noiseFrames.length < st0.calibrationFrames then
    (⟨none, true, none, none⟩,
     { st0 with noiseFrames := st0.noiseFrames ++ [avgPower] })
  else
    let st1 := if st0.calibrating then
        { st0 with noiseFloorEstimate := some (mean st0.noiseFrames),
                   calibrating := false }
      else st0
    let signalPower := avgPower
    let noisePower := st1.noiseFloorEstimate.getD 0
    let snrLinear := if 0 < noisePower then signalPower / noisePower else 1
    let snrDb := 10 * Real.logb 10 (max snrLinear 1)
    (⟨some snrDb, false, some (10 * Real.logb 10 noisePower),
      some (10 * Real.logb 10 signalPower)⟩, st1)

-- ===========================================================================
-- Feedback module
-- ===========================================================================

/-- Persistent state of the feedback module. -/
structure FeedbackState where
  freqHistory : List ℝ
  holdCounter : ℕ
  ringingFreq : ℝ

/-- The notch suggestion of a detected feedback ring. -/
structure NotchSuggestion where
  frequency : ℝ
  note : NoteInfo
  bandwidth : String
  suggestedCut : String

/-- Per-frame result of the feedback module. -/
structure FeedbackResult where
  isFeedbackRisk : Prop
  ringingFrequency : ℝ
  notchSuggestion : Option NotchSuggestion
  dominantFrequency : ℝ
  dominantDb : EReal

/-- Source `FeedbackModule.process`: scan the spectrum above 100 Hz for
the dominant bin, keep a 25-frame history of the dominant frequency (0
when quiet or below 250 Hz), and flag feedback while the hold counter - set
to 50 whenever at least 20 of 25 recent dominant frequencies are nonzero
with standard deviation below 20 Hz - is positive. -/
noncomputable def FeedbackModule.process (freqData : List ℝ)
    (sampleRate : ℝ) (fftSize : ℕ) (state : Option FeedbackState) :
    FeedbackResult × FeedbackState :=
  let st0 := state.getD ⟨[], 0, 0⟩
  let binHz := sampleRate / (fftSize : ℝ)
  let startI := (⌊(100 : ℝ) / binHz⌋).toNat
  let scan := ((List.range freqData.length).drop startI).foldl
    (fun (acc : EReal × ℕ) (i : ℕ) =>
      if acc.1 < ((freqData.getD i 0 : ℝ) : EReal) then
        (((freqData.getD i 0 : ℝ) : EReal), i)
      else acc)
    (⊥, 0)
  let maxDb := scan.1
  let dominantHz := (scan.2 : ℝ) * binHz
  let freqHistory1 :=
    if ((-20 : ℝ) : EReal) < maxDb ∧ 250 < dominantHz then
      circularPush st0.freqHistory dominantHz 25
    else circularPush st0.freqHistory 0 25
  let nonZero := freqHistory1.filter (fun f => decide (0 < f))
  let detected := 25 ≤ freqHistory1.length ∧ 20 ≤ nonZero.length ∧
      (match variance nonZero with
       | some v => Real.sqrt v < 20
       | none => False)
  let holdCounter1 := if detected then 50 else st0.holdCounter
  let ringingFreq1 := if detected then mean nonZero else st0.ringingFreq
  let notchSuggestion := if detected then
      some (⟨ringingFreq1, hzToNote ringingFreq1, "1/3 octave",
        "-6 to -12 dB"⟩ : NotchSuggestion)
    else none
  let isFeedback := 0 < holdCounter1
  let holdCounter2 := if 0 < holdCounter1 then holdCounter1 - 1
    else holdCounter1
  (⟨isFeedback, ringingFreq1, notchSuggestion, dominantHz, maxDb⟩,
   ⟨freqHistory1, holdCounter2, ringingFreq1⟩)

-- ===========================================================================
-- RT60 module
-- ===========================================================================

/-- Persistent state of the RT60 module (`decayStartTime` is unset until
the first decay onset; it is modelled with initial value 0, and is never
read before being set). -/
structure Rt60State where
  rt60Samples : List (EReal × ℝ)
  isDecaying : Bool
  decayStart : EReal
  decayStartTime : ℝ
  rt60 : Option ℝ

/-- Per-frame result of the RT60 module (the display string
`rt60String` is a pure rendering of `rt60` and is omitted). -/
structure Rt60Result where
  rt60 : Option ℝ
  isDecaying : Bool
  currentRmsDb : EReal

/-- Source `Rt60Module.process`: keep a 500-entry rolling (dB, time)
history; a decay starts when the mean of the last 10 samples is 15 dB
below the mean of samples 50..41 back while that older mean exceeds
-20 dBFS; once the level falls 60 dB below the decay start, the elapsed
time in seconds is reported as RT60. -/
noncomputable def Rt60Module.process (timeData : List ℝ) (sampleRate : ℝ)
    (state : Option Rt60State) (now : ℝ) : Rt60Result × Rt60State :=
  let st0 := state.getD ⟨[], false, 0, 0, none⟩
  let rms := Real.sqrt ((timeData.map fun v => v * v).sum / timeData.length)
  let rmsDb := linToDb rms
  let samples1 := st0.rt60Samples ++ [(rmsDb, now)]
  let samples2 := if 500 < samples1.length then samples1.tail else samples1
  let n := samples2.length
  let detect := 50 < n
  let recent := samples2.drop (n - 10)
  let older := (samples2.drop (n - 50)).take 10
  let recentMean := emean (recent.map (fun s => s.1))
  let olderMean := emean (older.map (fun s => s.1))
  let startDecay := detect ∧ st0.isDecaying = false ∧
      ((-20 : ℝ) : EReal) < olderMean ∧ recentMean < olderMean - 15
  let isDecaying1 := if startDecay then true else st0.isDecaying
  let decayStart1 := if startDecay then olderMean else st0.decayStart
  let decayStartTime1 := if startDecay then (older.getD 0 (⊥, 0)).2
    else st0.decayStartTime
  let finish := detect ∧ isDecaying1 = true ∧ rmsDb < decayStart1 - 60
  let rt60v := if finish then some ((now - decayStartTime1) / 1000)
    else st0.rt60
  let isDecaying2 := if finish then false else isDecaying1
  (⟨rt60v, isDecaying2, rmsDb⟩,
   ⟨samples2, isDecaying2, decayStart1, decayStartTime1, rt60v⟩)

-- ===========================================================================
-- Inharmonicity module
-- ===========================================================================

/-- One found harmonic of the inharmonicity result. -/
structure InharmonicHit where
  n : ℕ
  idealHz : ℝ
  actualHz : ℝ
  deviation : ℝ
  db : EReal

/-- Per-call result of the inharmonicity module.  Unlike the THD module,
its neutral result DOES carry an explicit not-applicable marker, the
score string "N/A". -/
structure InharmonicityResult where
  inharmonicity : ℝ
  harmonicsFound : List InharmonicHit
  inharmonicityScore : String

/-- Source `InharmonicityModule.process`: for harmonics 2..10 below
Nyquist, search within 5% of the ideal frequency for the strongest bin;
harmonics above -60 dB count, with percentage deviation from ideal; the
mean absolute deviation and a qualitative bucket are reported. -/
noncomputable def InharmonicityModule.process (freqData : List ℝ)
    (sampleRate : ℝ) (fftSize : ℕ) (fundamentalHz : ℝ) :
    InharmonicityResult :=
  if fundamentalHz = 0 ∨ fundamentalHz < 20 then ⟨0, [], "N/A"⟩
  else
    let binHz := sampleRate / (fftSize : ℝ)
    let hits := (([2, 3, 4, 5, 6, 7, 8, 9, 10] : List ℕ).takeWhile
      (fun (n : ℕ) => decide (fundamentalHz * (n : ℝ) ≤ sampleRate / 2))).filterMap
        fun (n : ℕ) =>
          let idealHz := fundamentalHz * (n : ℝ)
          let binLow : ℤ := ⌊idealHz * 0.95 / binHz⌋
          let binHigh : ℤ := ⌈idealHz * 1.05 / binHz⌉
          let scan := ((List.range freqData.length).filter
            (fun (b : ℕ) => decide (binLow ≤ (b : ℤ) ∧ (b : ℤ) ≤ binHigh))).foldl
              (fun (acc : EReal × ℕ) (b : ℕ) =>
                if acc.1 < ((freqData.getD b 0 : ℝ) : EReal) then
                  (((freqData.getD b 0 : ℝ) : EReal), b)
                else acc)
              (⊥, 0)
          if ((-60 : ℝ) : EReal) < scan.1 then
            let actualHz := (scan.2 : ℝ) * binHz
            some ⟨n, idealHz, actualHz,
              (actualHz - idealHz) / idealHz * 100, scan.1⟩
          else none
    let totalDeviation : ℝ := (hits.map (fun h => |h.deviation|)).sum
    let inharm : ℝ := if 0 < hits.length then
        totalDeviation / (hits.length : ℝ)
      else 0
    ⟨inharm, hits,
     if inharm < 0.5 then "Very Clean" else if inharm < 2 then "Normal"
     else if inharm < 5 then "Stretched" else "High"⟩

-- ===========================================================================
-- Standing-wave module
-- ===========================================================================

/-- Persistent state of the standing-wave module. -/
structure SwState where
  swHistory : List (List (ℝ × ℝ))

/-- Per-frame result of the standing-wave module; modes are (rounded
frequency, averaged dB) pairs. -/
structure SwResult where
  modes : List (ℤ × ℝ)
  detected : Prop
  worstMode : Option (ℤ × ℝ)

/-- Source `StandingWaveModule.process`: accumulate 20-300 Hz snapshots
over a 30-frame window; average the dB per rounded-Hz bucket (the JS Map
iterates in first-insertion order, modelled by the explicit key list);
buckets more than 8 dB above the overall mean are modes, sorted by level
descending, strongest 5 kept. -/
noncomputable def StandingWaveModule.process (freqData : List ℝ)
    (sampleRate : ℝ) (fftSize : ℕ) (state : Option SwState) :
    SwResult × SwState :=
  let st0 := state.getD ⟨[]⟩
  let binHz := sampleRate / (fftSize : ℝ)
  let maxBin : ℤ := ⌈(300 : ℝ) / binHz⌉
  let snapshot := ((List.range freqData.length).filter
    (fun (i : ℕ) => decide ((⌊(20 : ℝ) / binHz⌋ : ℤ) ≤ (i : ℤ) ∧
      (i : ℤ) ≤ maxBin))).map
        (fun (i : ℕ) => ((i : ℝ) * binHz, freqData.getD i 0))
  let swHistory1 := circularPush st0.swHistory snapshot 30
  if swHistory1.length < 10 then (⟨[], False, none⟩, ⟨swHistory1⟩)
  else
    let pairs := (swHistory1.map (fun frame =>
      frame.map (fun p => (round p.1, p.2)))).flatten
    let keys := pairs.foldl
      (fun (ks : List ℤ) p => if p.1 ∈ ks then ks else ks ++ [p.1]) []
    let avgData := keys.map (fun k =>
      (k, mean ((pairs.filter (fun p => decide (p.1 = k))).map
        (fun p => p.2))))
    let overallMean := mean (avgData.map (fun d => d.2))
    let modes := ((avgData.filter
      (fun d => decide (overallMean + 8 < d.2))).insertionSort
        (fun a b => b.2 ≤ a.2)).take 5
    (⟨modes, modes ≠ [], modes.head?⟩, ⟨swHistory1⟩)

-- ===========================================================================
-- Engine orchestrator (class OrdoAudio)
-- ===========================================================================

/-- One frame of input, as the orchestrator reads it from the analyser
(time samples, magnitude spectrum, configuration and the clock). -/
structure FrameInput where
  timeData : List ℝ
  freqData : List ℝ
  sampleRate : ℝ
  fftSize : ℕ
  now : ℝ

/-- The `_moduleStates` map of the orchestrator (one optional state per
stateful module; absent means not yet lazily created) together with the
module-level `_melFilterbank` cache of the MFCC module. -/
structure EngineStates where
  clipping : Option ClippingState
  dynamics : Option DynamicsState
  truePeak : Option TruePeakState
  lufs : Option LufsState
  onset : Option OnsetState
  snr : Option SnrState
  feedback : Option FeedbackState
  rt60 : Option Rt60State
  standingWaves : Option SwState
  mfccCache : Option (List (List ℝ))

/-- The orchestrator: the active-module set, the per-module states and the
frame counter. -/
structure Engine where
  active : Finset String
  states : EngineStates
  frameCount : ℕ

/-- The fixed catalog of the 19 module names (source `_activeModules`
default and the static `modules` getter). -/
def OrdoAudio.moduleCatalog : List String :=
  ["rta", "spectral", "lufs", "truePeak", "dynamics", "pitch",
   "chroma", "mfcc", "onset", "thd", "snr", "zcr", "dcOffset",
   "clipping", "feedback", "phase", "rt60", "inharmonicity",
   "standingWaves"]

/-- Source `OrdoAudio.use`: replace the active set. -/
def OrdoAudio.use (e : Engine) (modules : List String) : Engine :=
  { e with active := modules.toFinset }

/-- Source `OrdoAudio.enable`: add modules to the active set. -/
def OrdoAudio.enable (e : Engine) (modules : List String) : Engine :=
  { e with active := modules.foldl (fun s m => insert m s) e.active }

/-- Source `OrdoAudio.disable`: remove modules from the active set. -/
def OrdoAudio.disable (e : Engine) (modules : List String) : Engine :=
  { e with active := modules.foldl (fun s m => s.erase m) e.active }

/-- The per-frame result record assembled by `processFrame`; a `none`
field is a field the source result object does not carry (module
disabled, or - for thd/inharmonicity - the pitch module disabled too). -/
structure FrameResult where
  frame : ℕ
  timestamp : ℝ
  sampleRate : ℝ
  fftSize : ℕ
  clipping : Option ClippingResult
  dcOffset : Option DcOffsetResult
  zcr : Option ZcrResult
  dynamics : Option DynamicsResult
  truePeak : Option TruePeakResult
  lufs : Option LufsResult
  rta : Option RtaResult
  spectral : Option SpectralResult
  pitch : Option PitchResult
  chroma : Option ChromaResult
  mfcc : Option MfccResult
  onset : Option OnsetResult
  thd : Option ThdResult
  snr : Option SnrResult
  feedback : Option FeedbackResult
  phase : Option PhaseResult
  rt60 : Option Rt60Result
  inharmonicity : Option InharmonicityResult
  standingWaves : Option SwResult

/-- Source `OrdoAudio.processFrame`: run every active module in source
order, each stateful module reading and replacing its own state slot;
disabled modules are skipped entirely (state untouched, field absent).
The thd and inharmonicity modules additionally require the pitch result of
the same frame (`has(m) && result.pitch`), and phase is always called with
a null right channel. -/
noncomputable def OrdoAudio.processFrame (e : Engine) (f : FrameInput) :
    FrameResult × Engine :=
  let s := e.states
  let frameCount1 := e.frameCount + 1
  let clippingStep := if "clipping" ∈ e.active then
      some (ClippingModule.process f.timeData s.clipping) else none
  let dcOffsetRes := if "dcOffset" ∈ e.active then
      some (DcOffsetModule.process f.timeData) else none
  let zcrRes := if "zcr" ∈ e.active then
      some (ZcrModule.process f.timeData f.sampleRate) else none
  let dynamicsStep := if "dynamics" ∈ e.active then
      some (DynamicsModule.process f.timeData s.dynamics) else none
  let truePeakStep := if "truePeak" ∈ e.active then
      some (TruePeakModule.process f.timeData s.truePeak) else none
  let lufsStep := if "lufs" ∈ e.active then
      some (LufsModule.process f.timeData s.lufs f.sampleRate) else none
  let rtaRes := if "rta" ∈ e.active then
      some (RtaModule.process f.freqData f.sampleRate f.fftSize) else none
  let spectralRes := if "spectral" ∈ e.active then
      some (SpectralFeaturesModule.process f.freqData f.sampleRate f.fftSize)
    else none
  let pitchRes := if "pitch" ∈ e.active then
      some (PitchModule.process f.timeData f.sampleRate 0.15) else none
  let chromaRes := if "chroma" ∈ e.active then
      some (ChromagramModule.process f.freqData f.sampleRate f.fftSize)
    else none
  let mfccStep := if "mfcc" ∈ e.active then
      some (MfccModule.process s.mfccCache f.freqData f.sampleRate
        f.fftSize 13)
    else none
  let onsetStep := if "onset" ∈ e.active then
      some (OnsetModule.process f.freqData s.onset f.sampleRate f.fftSize
        f.now)
    else none
  let thdRes := if "thd" ∈ e.active then
      pitchRes.map (fun p =>
        ThdModule.process f.freqData f.sampleRate f.fftSize p.frequency)
    else none
  let snrStep := if "snr" ∈ e.active then
      some (SnrModule.process f.freqData s.snr) else none
  let feedbackStep := if "feedback" ∈ e.active then
      some (FeedbackModule.process f.freqData f.sampleRate f.fftSize
        s.feedback)
    else none
  let phaseRes := if "phase" ∈ e.active then
      some (PhaseModule.process f.timeData none) else none
  let rt60Step := if "rt60" ∈ e.active then
      some (Rt60Module.process f.timeData f.sampleRate s.rt60 f.now)
    else none
  let inharmRes := if "inharmonicity" ∈ e.active then
      pitchRes.map (fun p =>
        InharmonicityModule.process f.freqData f.sampleRate f.fftSize
          p.frequency)
    else none
  let swStep := if "standingWaves" ∈ e.active then
      some (StandingWaveModule.process f.freqData f.sampleRate f.fftSize
        s.standingWaves)
    else none
  ({ frame := frameCount1, timestamp := f.now, sampleRate := f.sampleRate,
     fftSize := f.fftSize,
     clipping := clippingStep.map (fun p => p.1),
     dcOffset := dcOffsetRes,
     zcr := zcrRes,
     dynamics := dynamicsStep.map (fun p => p.1),
     truePeak := truePeakStep.map (fun p => p.1),
     lufs := lufsStep.map (fun p => p.1),
     rta := rtaRes,
     spectral := spectralRes,
     pitch := pitchRes,
     chroma := chromaRes,
     mfcc := mfccStep.map (fun p => p.1),
     onset := onsetStep.map (fun p => p.1),
     thd := thdRes,
     snr := snrStep.map (fun p => p.1),
     feedback := feedbackStep.map (fun p => p.1),
     phase := phaseRes,
     rt60 := rt60Step.map (fun p => p.1),
     inharmonicity := inharmRes,
     standingWaves := swStep.map (fun p => p.1) },
   { e with
     frameCount := frameCount1
     states := {
       clipping := match clippingStep with
         | some p => some p.2
         | none => s.clipping
       dynamics := match dynamicsStep with
         | some p => some p.2
         | none => s.dynamics
       truePeak := match truePeakStep with
         | some p => some p.2
         | none => s.truePeak
       lufs := match lufsStep with
         | some p => some p.2
         | none => s.lufs
       onset := match onsetStep with
         | some p => some p.2
         | none => s.onset
       snr := match snrStep with
         | some p => some p.2
         | none => s.snr
       feedback := match feedbackStep with
         | some p => some p.2
         | none => s.feedback
       rt60 := match rt60Step with
         | some p => some p.2
         | none => s.rt60
       standingWaves := match swStep with
         | some p => some p.2
         | none => s.standingWaves
       mfccCache := match mfccStep with
         | some p => some p.2
         | none => s.mfccCache } })

/-- Per-module state preservation between two engine state snapshots:
the slot owned by module m (if it has one) is unchanged. -/
def moduleStatePreserved (m : String) (s t : EngineStates) : Prop :=
  (m = "clipping" → t.clipping = s.clipping) ∧
  (m = "dynamics" → t.dynamics = s.dynamics) ∧
  (m = "truePeak" → t.truePeak = s.truePeak) ∧
  (m = "lufs" → t.lufs = s.lufs) ∧
  (m = "onset" → t.onset = s.onset) ∧
  (m = "snr" → t.snr = s.snr) ∧
  (m = "feedback" → t.feedback = s.feedback) ∧
  (m = "rt60" → t.rt60 = s.rt60) ∧
  (m = "standingWaves" → t.standingWaves = s.standingWaves) ∧
  (m = "mfcc" → t.mfccCache = s.mfccCache)

/-- The frame result carries no field for module m. -/
def resultOmits (m : String) (r : FrameResult) : Prop :=
  (m = "rta" → r.rta = none) ∧
  (m = "spectral" → r.spectral = none) ∧
  (m = "lufs" → r.lufs = none) ∧
  (m = "truePeak" → r.truePeak = none) ∧
  (m = "dynamics" → r.dynamics = none) ∧
  (m = "pitch" → r.pitch = none) ∧
  (m = "chroma" → r.chroma = none) ∧
  (m = "mfcc" → r.mfcc = none) ∧
  (m = "onset" → r.onset = none) ∧
  (m = "thd" → r.thd = none) ∧
  (m = "snr" → r.snr = none) ∧
  (m = "zcr" → r.zcr = none) ∧
  (m = "dcOffset" → r.dcOffset = none) ∧
  (m = "clipping" → r.clipping = none) ∧
  (m = "feedback" → r.feedback = none) ∧
  (m = "phase" → r.phase = none) ∧
  (m = "rt60" → r.rt60 = none) ∧
  (m = "inharmonicity" → r.inharmonicity = none) ∧
  (m = "standingWaves" → r.standingWaves = none)

/-- For a stateful module m, the frame result field of m is the module
process applied to the PREVIOUSLY ACCUMULATED state slot of m (resuming,
not resetting). -/
def resultResumes (m : String) (e : Engine) (f : FrameInput)
    (r : FrameResult) : Prop :=
  (m = "clipping" → r.clipping = some (ClippingModule.process f.timeData e.states.clipping).1) ∧
  (m = "dynamics" → r.dynamics = some (DynamicsModule.process f.timeData e.states.dynamics).1) ∧
  (m = "truePeak" → r.truePeak = some (TruePeakModule.process f.timeData e.states.truePeak).1) ∧
  (m = "lufs" → r.lufs = some (LufsModule.process f.timeData e.states.lufs f.sampleRate).1) ∧
  (m = "onset" → r.onset = some (OnsetModule.process f.freqData e.states.onset f.sampleRate f.fftSize f.now).1) ∧
  (m = "snr" → r.snr = some (SnrModule.process f.freqData e.states.snr).1) ∧
  (m = "feedback" → r.feedback = some (FeedbackModule.process f.freqData f.sampleRate f.fftSize e.states.feedback).1) ∧
  (m = "rt60" → r.rt60 = some (Rt60Module.process f.timeData f.sampleRate e.states.rt60 f.now).1) ∧
  (m = "standingWaves" → r.standingWaves = some (StandingWaveModule.process f.freqData f.sampleRate f.fftSize e.states.standingWaves).1) ∧
  (m = "mfcc" → r.mfcc = some (MfccModule.process e.states.mfccCache f.freqData f.sampleRate f.fftSize 13).1)

-- ===========================================================================
-- Theorems
-- ===========================================================================

theorem circularPush_length {α : Type} (arr : List α) (v : α) (N : ℕ)
    (h : arr.length ≤ N) :
    (circularPush arr v N).length = min (arr.length + 1) N := by
  unfold circularPush
  by_cases hc : N < (arr ++ [v]).length
  · rw [if_pos hc]
    simp only [List.length_tail, List.length_append, List.length_singleton] at *
    omega
  · rw [if_neg hc]
    simp only [List.length_append, List.length_singleton] at *
    omega

theorem circularPushMany_length {α : Type} (vals : List α) (arr : List α) (N : ℕ)
    (h : arr.length ≤ N) :
    (circularPushMany arr vals N).length = min (arr.length + vals.length) N := by
  induction vals generalizing arr with
  | nil => simpa [circularPushMany] using by omega
  | cons v vs ih =>
    have hstep := circularPush_length arr v N h
    have hle : (circularPush arr v N).length ≤ N := by omega
    have := ih (circularPush arr v N) hle
    simp only [circularPushMany, List.foldl_cons] at *
    rw [this, hstep]
    simp only [List.length_cons]
    omega

/-- C9: a push-with-eviction on a buffer whose length is at most its
capacity N keeps the length at most N; once enough pushes have happened the
length is exactly N (the length after any sequence of pushes is
min (initial + pushed, N)); and when the buffer is full the push drops the
head, i.e. the oldest element is evicted first. -/
theorem C9_circularBuffer_capacity {α : Type} (arr : List α) (val : α)
    (vals : List α) (N : ℕ) (h : arr.length ≤ N) :
    (circularPush arr val N).length ≤ N ∧
    (arr.length = N → circularPush arr val N = (arr ++ [val]).tail) ∧
    (circularPushMany arr vals N).length = min (arr.length + vals.length) N := by
  refine ⟨?_, ?_, circularPushMany_length vals arr N h⟩
  · rw [circularPush_length arr val N h]; omega
  · intro hfull
    unfold circularPush
    rw [if_pos (by simp [hfull])]

/-- Witness for C9 at a concrete buffer: capacity 2, three further pushes. -/
theorem C9_witness :
    (circularPush [1, 2] 3 2).length ≤ 2 ∧
    (([1, 2] : List ℕ).length = 2 → circularPush [1, 2] 3 2 = ([1, 2] ++ [3]).tail) ∧
    (circularPushMany [1, 2] [4, 5, 6] 2).length = min (([1, 2] : List ℕ).length + 3) 2 :=
  C9_circularBuffer_capacity [1, 2] 3 [4, 5, 6] 2 (by decide)

theorem oversample_pair (a b : ℝ) :
    TruePeakModule.oversample [a, b] =
      [a, a * 0.75 + b * 0.25, a * 0.5 + b * 0.5, a * 0.25 + b * 0.75,
       0, 0, 0, 0] := by
  simp [TruePeakModule.oversample, List.range_succ]

theorem foldl_maxabs_ge_init (a : ℝ) (l : List ℝ) :
    a ≤ l.foldl (fun m v => max m |v|) a := by
  induction l generalizing a with
  | nil => simp
  | cons x xs ih => exact le_trans (le_max_left a |x|) (ih (max a |x|))

theorem foldl_maxabs_ge_mem (l : List ℝ) (x : ℝ) :
    x ∈ l → ∀ a : ℝ, |x| ≤ l.foldl (fun m v => max m |v|) a := by
  induction l with
  | nil => intro hx; cases hx
  | cons y ys ih =>
    intro hx a
    rcases List.mem_cons.mp hx with rfl | hmem
    · exact le_trans (le_max_right a |x|) (foldl_maxabs_ge_init (max a |x|) ys)
    · exact ih hmem (max a |y|)

theorem foldl_maxabs_le (a c : ℝ) (l : List ℝ) (ha : a ≤ c)
    (h : ∀ x ∈ l, |x| ≤ c) : l.foldl (fun m v => max m |v|) a ≤ c := by
  induction l generalizing a with
  | nil => exact ha
  | cons y ys ih =>
    exact ih (max a |y|) (max_le ha (h y (List.mem_cons_self y ys)))
      (fun x hx => h x (List.mem_cons_of_mem y hx))

theorem maxAbsSample_oversample_pair_same (a : ℝ) :
    maxAbsSample (TruePeakModule.oversample [a, a]) = |a| := by
  rw [oversample_pair]
  unfold maxAbsSample
  apply le_antisymm
  · apply foldl_maxabs_le _ _ _ (abs_nonneg a)
    intro x hx
    fin_cases hx
    · exact le_rfl
    · rw [show a * 0.75 + a * 0.25 = a from by ring]
    · rw [show a * 0.5 + a * 0.5 = a from by ring]
    · rw [show a * 0.25 + a * 0.75 = a from by ring]
    · simpa using abs_nonneg a
    · simpa using abs_nonneg a
    · simpa using abs_nonneg a
    · simpa using abs_nonneg a
  · exact foldl_maxabs_ge_mem _ a (by simp) 0

theorem maxAbsSample_oversample_zero_last (v : ℝ) :
    maxAbsSample (TruePeakModule.oversample [0, v]) = |v| * 0.75 := by
  rw [oversample_pair]
  unfold maxAbsSample
  have hv : (0 : ℝ) ≤ |v| := abs_nonneg v
  have hv : (0 : ℝ) ≤ |v| := abs_nonneg v
  apply le_antisymm
  · apply foldl_maxabs_le _ _ _ (by nlinarith)
    intro x hx
    fin_cases hx
    · simpa using by nlinarith
    · rw [show (0:ℝ) * 0.75 + v * 0.25 = v * 0.25 from by ring, abs_mul,
        show |(0.25:ℝ)| = 0.25 from by norm_num]
      nlinarith
    · rw [show (0:ℝ) * 0.5 + v * 0.5 = v * 0.5 from by ring, abs_mul,
        show |(0.5:ℝ)| = 0.5 from by norm_num]
      nlinarith
    · rw [show (0:ℝ) * 0.25 + v * 0.75 = v * 0.75 from by ring, abs_mul,
        show |(0.75:ℝ)| = 0.75 from by norm_num]
    · simpa using by nlinarith
    · simpa using by nlinarith
    · simpa using by nlinarith
    · simpa using by nlinarith
  · have hmem : (0 : ℝ) * 0.25 + v * 0.75 ∈
        [(0:ℝ), 0 * 0.75 + v * 0.25, 0 * 0.5 + v * 0.5, 0 * 0.25 + v * 0.75,
         0, 0, 0, 0] := by simp
    have := foldl_maxabs_ge_mem _ _ hmem 0
    calc |v| * 0.75 = |0 * 0.25 + v * 0.75| := by
          rw [show (0:ℝ) * 0.25 + v * 0.75 = v * 0.75 from by ring, abs_mul,
            show |(0.75:ℝ)| = 0.75 from by norm_num]
      _ ≤ _ := this

theorem truePeak_isOver_iff (x : List ℝ) (s : Option TruePeakState) :
    (TruePeakModule.process x s).1.isOver ↔
      (-1 : EReal) < linToDb (maxAbsSample (TruePeakModule.oversample x)) :=
  Iff.rfl

theorem truePeak_hold_none (x : List ℝ) :
    (TruePeakModule.process x none).2.truePeakHold =
      if (⊥ : EReal) < linToDb (maxAbsSample (TruePeakModule.oversample x)) then
        linToDb (maxAbsSample (TruePeakModule.oversample x))
      else ⊥ := rfl

theorem truePeak_hold_some (x : List ℝ) (s : TruePeakState) :
    (TruePeakModule.process x (some s)).2.truePeakHold =
      if (if s.truePeakHold = 0 then (⊥ : EReal) else s.truePeakHold) <
          linToDb (maxAbsSample (TruePeakModule.oversample x)) then
        linToDb (maxAbsSample (TruePeakModule.oversample x))
      else (if s.truePeakHold = 0 then (⊥ : EReal) else s.truePeakHold) := rfl

theorem truePeak_result_hold_eq (x : List ℝ) (s : Option TruePeakState) :
    (TruePeakModule.process x s).1.truePeakHold =
      (TruePeakModule.process x s).2.truePeakHold := rfl

/-- C1 (amended): the true-peak hold never decreases across frames as long
as the held value is not exactly 0 dBTP (a held value of exactly 0 is falsy
in JavaScript and is re-initialised to -Infinity by the lazy-init guard),
and the isOver flag is true exactly when the CURRENT frame true peak - not
the held one - exceeds -1.0 dBTP. -/
theorem C1_truePeak_hold_isOver (h : EReal) (x : List ℝ) (hh : h ≠ 0) :
    h ≤ (TruePeakModule.process x (some ⟨h⟩)).2.truePeakHold ∧
    ((TruePeakModule.process x (some ⟨h⟩)).1.isOver ↔
      (-1 : EReal) < linToDb (maxAbsSample (TruePeakModule.oversample x))) := by
  constructor
  · rw [truePeak_hold_some]
    simp only [if_neg hh]
    by_cases hc : h < linToDb (maxAbsSample (TruePeakModule.oversample x))
    · rw [if_pos hc]; exact le_of_lt hc
    · rw [if_neg hc]
  · exact truePeak_isOver_iff x _

/-- Witness for C1 at a concrete held value and frame. -/
theorem C1_truePeak_witness :
    ((5 : ℝ) : EReal) ≤
      (TruePeakModule.process [0, 0] (some ⟨((5 : ℝ) : EReal)⟩)).2.truePeakHold ∧
    ((TruePeakModule.process [0, 0] (some ⟨((5 : ℝ) : EReal)⟩)).1.isOver ↔
      (-1 : EReal) < linToDb (maxAbsSample (TruePeakModule.oversample [0, 0]))) :=
  C1_truePeak_hold_isOver ((5 : ℝ) : EReal) [0, 0]
    (by exact_mod_cast (by norm_num : (5 : ℝ) ≠ 0))

theorem logb_ten_two_pos : (0 : ℝ) < Real.logb 10 2 :=
  Real.logb_pos (by norm_num) (by norm_num)

/-- C1 counterexample: process the frame [2,2] from a fresh state, then the
silent frame [0,0].  After the second frame the held true peak exceeds
-1.0 dBTP, yet isOver is false - the claimed equivalence between isOver and
the HELD value exceeding -1.0 dBTP fails. -/
theorem C1_counterexample :
    ¬ ((TruePeakModule.process [0, 0]
          (some (TruePeakModule.process [2, 2] none).2)).1.isOver ↔
       (-1 : EReal) <
         (TruePeakModule.process [0, 0]
          (some (TruePeakModule.process [2, 2] none).2)).1.truePeakHold) := by
  have hdb2 : linToDb (maxAbsSample (TruePeakModule.oversample [2, 2]))
      = ((20 * Real.logb 10 2 : ℝ) : EReal) := by
    rw [maxAbsSample_oversample_pair_same, abs_of_pos (by norm_num : (0:ℝ) < 2),
      linToDb, if_pos (by norm_num : (0:ℝ) < 2)]
  have hdb0 : linToDb (maxAbsSample (TruePeakModule.oversample [0, 0])) = ⊥ := by
    rw [maxAbsSample_oversample_pair_same, abs_zero, linToDb,
      if_neg (by norm_num : ¬ (0:ℝ) < 0)]
  have hpos : (0 : ℝ) < 20 * Real.logb 10 2 := by
    have := logb_ten_two_pos; nlinarith
  have hstate1 : (TruePeakModule.process [2, 2] none).2.truePeakHold
      = ((20 * Real.logb 10 2 : ℝ) : EReal) := by
    rw [truePeak_hold_none, hdb2,
      if_pos (bot_lt_iff_ne_bot.mpr (EReal.coe_ne_bot _))]
  have hne : ((20 * Real.logb 10 2 : ℝ) : EReal) ≠ 0 := by
    exact_mod_cast ne_of_gt hpos
  intro hiff
  have hisOver : ¬ (TruePeakModule.process [0, 0]
      (some (TruePeakModule.process [2, 2] none).2)).1.isOver := by
    rw [truePeak_isOver_iff, hdb0]
    exact not_lt_bot
  apply hisOver
  rw [hiff, truePeak_result_hold_eq, truePeak_hold_some, hstate1, if_neg hne,
    hdb0, if_neg not_lt_bot]
  calc (-1 : EReal) = ((-1 : ℝ) : EReal) := by norm_num
    _ < ((20 * Real.logb 10 2 : ℝ) : EReal) :=
      EReal.coe_lt_coe_iff.mpr (by nlinarith)

/-- C10 (amended): the 4x oversampler fills output slots only for input
indices 0 .. N-2 - every slot whose index-quotient j/4 reaches N-1 is 0 -
but the frame final sample is NOT ignored: it still enters the three
interpolated slots of input index N-2.  In particular a frame [0, v] with
only its last sample nonzero reports true peak linToDb(0.75 * absolute v),
which is not negative infinity. -/
theorem C10_oversample_lastSample (x : List ℝ) (j : ℕ) (v : ℝ)
    (hj : x.length - 1 ≤ j / 4) (hv : v ≠ 0) :
    (TruePeakModule.oversample x).getD j 0 = 0 ∧
    linToDb (maxAbsSample (TruePeakModule.oversample [0, v]))
      = linToDb (|v| * 0.75) ∧
    linToDb (maxAbsSample (TruePeakModule.oversample [0, v])) ≠ ⊥ := by
  refine ⟨?_, by rw [maxAbsSample_oversample_zero_last], ?_⟩
  · rcases lt_or_ge j (4 * x.length) with hlt | hge
    · simp only [TruePeakModule.oversample, List.getD_eq_getElem?_getD,
        List.getElem?_map, List.getElem?_range hlt, Option.map_some',
        Option.getD_some]
      rw [if_neg (by omega)]
    · simp only [TruePeakModule.oversample, List.getD_eq_getElem?_getD,
        List.getElem?_map]
      rw [List.getElem?_eq_none (by simpa using hge)]
      rfl
  · rw [maxAbsSample_oversample_zero_last, linToDb,
      if_pos (by positivity)]
    exact EReal.coe_ne_bot _

/-- Witness for C10 at a concrete frame, slot and final-sample value. -/
theorem C10_witness :
    (TruePeakModule.oversample [3, 4]).getD 4 0 = 0 ∧
    linToDb (maxAbsSample (TruePeakModule.oversample [0, 2]))
      = linToDb (|(2 : ℝ)| * 0.75) ∧
    linToDb (maxAbsSample (TruePeakModule.oversample [0, 2])) ≠ ⊥ :=
  C10_oversample_lastSample [3, 4] 4 2 (by norm_num) (by norm_num)

/-- C10 counterexample: the reported true peak is NOT independent of the
frame final sample - frames [0,1] and [0,0] differ only in the last sample
yet produce different true peaks - and the frame [0,1], whose only nonzero
sample is the last one, does not report negative infinity. -/
theorem C10_counterexample :
    linToDb (maxAbsSample (TruePeakModule.oversample [0, 1])) ≠
      linToDb (maxAbsSample (TruePeakModule.oversample [0, 0])) ∧
    linToDb (maxAbsSample (TruePeakModule.oversample [0, 1])) ≠ ⊥ := by
  have h1 : maxAbsSample (TruePeakModule.oversample [0, 1]) = |(1 : ℝ)| * 0.75 :=
    maxAbsSample_oversample_zero_last 1
  have h0 : maxAbsSample (TruePeakModule.oversample [0, 0]) = |(0 : ℝ)| :=
    maxAbsSample_oversample_pair_same 0
  have hne : linToDb (maxAbsSample (TruePeakModule.oversample [0, 1])) ≠ ⊥ := by
    rw [h1, linToDb, if_pos (by norm_num)]
    exact EReal.coe_ne_bot _
  have hbot : linToDb (maxAbsSample (TruePeakModule.oversample [0, 0])) = ⊥ := by
    rw [h0, abs_zero, linToDb, if_neg (by norm_num : ¬ (0:ℝ) < 0)]
  refine ⟨?_, hne⟩
  rw [hbot]
  exact hne

theorem applyBiquad_zeroInput (f : Biquad) (hf : f.zeroState) :
    LufsModule.applyBiquad f 0 = (0, f) := by
  obtain ⟨h1, h2, h3, h4⟩ := hf
  unfold LufsModule.applyBiquad
  have hy : f.b0 * 0 + f.b1 * f.x1 + f.b2 * f.x2 - f.a1 * f.y1 - f.a2 * f.y2
      = 0 := by rw [h1, h2, h3, h4]; ring
  rw [hy]
  cases f
  simp_all

theorem lufs_foldl_silent (x : List ℝ) :
    (∀ v ∈ x, v = 0) → ∀ (a : ℝ) (pre hp : Biquad),
      pre.zeroState → hp.zeroState →
      x.foldl (fun acc x =>
        let p := LufsModule.applyBiquad acc.2.1 x
        let q := LufsModule.applyBiquad acc.2.2 p.1
        (acc.1 + q.1 * q.1, p.2, q.2)) (a, pre, hp) = (a, pre, hp) := by
  induction x with
  | nil => intro _ a pre hp _ _; rfl
  | cons v vs ih =>
    intro hx a pre hp hpre hhp
    have hv : v = 0 := hx v (List.mem_cons_self v vs)
    subst hv
    rw [List.foldl_cons]
    refine Eq.trans ?_ (ih (fun v hv => hx v (List.mem_cons_of_mem _ hv)) a pre hp hpre hhp)
    congr 1
    have h1 := applyBiquad_zeroInput pre hpre
    have h2 : LufsModule.applyBiquad hp (LufsModule.applyBiquad pre 0).1 = (0, hp) := by
      rw [h1]; exact applyBiquad_zeroInput hp hhp
    show (a + (LufsModule.applyBiquad hp (LufsModule.applyBiquad pre 0).1).1 *
          (LufsModule.applyBiquad hp (LufsModule.applyBiquad pre 0).1).1,
         (LufsModule.applyBiquad pre 0).2,
         (LufsModule.applyBiquad hp (LufsModule.applyBiquad pre 0).1).2)
        = ((a : ℝ), pre, hp)
    rw [h2, h1]
    norm_num

theorem filterBlock_silent (pre hp : Biquad) (x : List ℝ)
    (hpre : pre.zeroState) (hhp : hp.zeroState) (hx : ∀ v ∈ x, v = 0) :
    LufsModule.filterBlock pre hp x = (0, pre, hp) :=
  lufs_foldl_silent x hx 0 pre hp hpre hhp

theorem mean_of_zeros (l : List ℝ) (h : ∀ b ∈ l, b = 0) : mean l = 0 := by
  unfold mean
  rw [List.sum_eq_zero h]
  simp

theorem circularPush_zeros (l : List ℝ) (n : ℕ) (h : ∀ b ∈ l, b = 0) :
    ∀ b ∈ circularPush l 0 n, b = 0 := by
  intro b hb
  have hb2 : b ∈ (if n < (l ++ [0]).length then (l ++ [0]).tail else (l ++ [0])) := hb
  split at hb2
  · have := List.mem_of_mem_tail hb2
    rcases List.mem_append.mp this with hl | hr
    · exact h b hl
    · simpa using hr
  · rcases List.mem_append.mp hb2 with hl | hr
    · exact h b hl
    · simpa using hr

theorem lufsOfMs_zero : lufsOfMs 0 = ⊥ := by simp [lufsOfMs]

theorem finiteOrNegInf_bot : finiteOrNegInf ⊥ = ⊥ := by
  simp [finiteOrNegInf]

theorem initState_silent (sr : ℝ) : LufsStateSilent (LufsModule.initState sr) := by
  refine ⟨⟨rfl, rfl, rfl, rfl⟩, ⟨rfl, rfl, rfl, rfl⟩, ?_, ?_, rfl, rfl⟩ <;> simp [LufsModule.initState]

theorem lufs_process_silent (x : List ℝ) (state : Option LufsState) (sr : ℝ)
    (hst : LufsOptSilent state) (hx : ∀ v ∈ x, v = 0) :
    (LufsModule.process x state sr).1.momentary = ⊥ ∧
    (LufsModule.process x state sr).1.shortTerm = ⊥ ∧
    (LufsModule.process x state sr).1.integrated = ⊥ ∧
    LufsStateSilent (LufsModule.process x state sr).2 := by
  have hsil : LufsStateSilent (state.getD (LufsModule.initState sr)) := by
    cases state with
    | none => exact initState_silent sr
    | some s => exact hst
  set st0 := state.getD (LufsModule.initState sr) with hst0
  obtain ⟨hpre, hhp, hmom, hshort, hintb, hintl⟩ := hsil
  have hfb : LufsModule.filterBlock st0.preFilter st0.hpFilter x
      = (0, st0.preFilter, st0.hpFilter) :=
    filterBlock_silent _ _ x hpre hhp hx
  have hbms : (LufsModule.filterBlock st0.preFilter st0.hpFilter x).1 / x.length
      = 0 := by rw [hfb]; simp
  have hmom1 : ∀ b ∈ circularPush st0.momentaryBuffer
      ((LufsModule.filterBlock st0.preFilter st0.hpFilter x).1 / x.length) 4,
      b = 0 := by rw [hbms]; exact circularPush_zeros _ 4 hmom
  have hshort1 : ∀ b ∈ circularPush st0.shortTermBuffer
      ((LufsModule.filterBlock st0.preFilter st0.hpFilter x).1 / x.length) 30,
      b = 0 := by rw [hbms]; exact circularPush_zeros _ 30 hshort
  have hmomL : lufsOfMs (mean (circularPush st0.momentaryBuffer
      ((LufsModule.filterBlock st0.preFilter st0.hpFilter x).1 / x.length) 4))
      = ⊥ := by rw [mean_of_zeros _ hmom1, lufsOfMs_zero]
  have hshortL : lufsOfMs (mean (circularPush st0.shortTermBuffer
      ((LufsModule.filterBlock st0.preFilter st0.hpFilter x).1 / x.length) 30))
      = ⊥ := by rw [mean_of_zeros _ hshort1, lufsOfMs_zero]
  have hgate : ¬ (((-70 : ℝ) : EReal) < lufsOfMs (mean (circularPush
      st0.momentaryBuffer
      ((LufsModule.filterBlock st0.preFilter st0.hpFilter x).1 / x.length) 4)))
      := by rw [hmomL]; exact not_lt_bot
  have hib : (if ((-70 : ℝ) : EReal) < lufsOfMs (mean (circularPush
      st0.momentaryBuffer
      ((LufsModule.filterBlock st0.preFilter st0.hpFilter x).1 / x.length) 4))
      then st0.integratedBlocks ++
        [(LufsModule.filterBlock st0.preFilter st0.hpFilter x).1 / x.length]
      else st0.integratedBlocks) = [] := by
    rw [if_neg hgate, hintb]
  have e1 : (LufsModule.process x state sr).1.momentary = ⊥ := by
    show finiteOrNegInf (lufsOfMs (mean (circularPush st0.momentaryBuffer
      ((LufsModule.filterBlock st0.preFilter st0.hpFilter x).1 / x.length) 4)))
      = ⊥
    rw [hmomL, finiteOrNegInf_bot]
  have e2 : (LufsModule.process x state sr).1.shortTerm = ⊥ := by
    show finiteOrNegInf (lufsOfMs (mean (circularPush st0.shortTermBuffer
      ((LufsModule.filterBlock st0.preFilter st0.hpFilter x).1 / x.length) 30)))
      = ⊥
    rw [hshortL, finiteOrNegInf_bot]
  have e4 : LufsModule.integratedUpdate
      (if ((-70 : ℝ) : EReal) < lufsOfMs (mean (circularPush
        st0.momentaryBuffer
        ((LufsModule.filterBlock st0.preFilter st0.hpFilter x).1 / x.length) 4))
       then st0.integratedBlocks ++
         [(LufsModule.filterBlock st0.preFilter st0.hpFilter x).1 / x.length]
       else st0.integratedBlocks) st0.integratedLufs = ⊥ := by
    rw [hib]
    rw [show LufsModule.integratedUpdate [] st0.integratedLufs
      = st0.integratedLufs from by simp [LufsModule.integratedUpdate]]
    exact hintl
  have e3 : (LufsModule.process x state sr).1.integrated = ⊥ := by
    show finiteOrNegInf (LufsModule.integratedUpdate
      (if ((-70 : ℝ) : EReal) < lufsOfMs (mean (circularPush
        st0.momentaryBuffer
        ((LufsModule.filterBlock st0.preFilter st0.hpFilter x).1 / x.length) 4))
       then st0.integratedBlocks ++
         [(LufsModule.filterBlock st0.preFilter st0.hpFilter x).1 / x.length]
       else st0.integratedBlocks) st0.integratedLufs) = ⊥
    rw [e4, finiteOrNegInf_bot]
  refine ⟨e1, e2, e3, hpre, hhp, hmom1, hshort1, hib, e4⟩

theorem maxAbsSample_zeros (l : List ℝ) (h : ∀ v ∈ l, v = 0) :
    maxAbsSample l = 0 := by
  apply le_antisymm
  · apply foldl_maxabs_le _ _ _ le_rfl
    intro x hx
    rw [h x hx]
    simp
  · exact foldl_maxabs_ge_init 0 l

theorem clipping_process_silent (x : List ℝ) (state : Option ClippingState)
    (hst : ClippingOptSilent state) (hx : ∀ v ∈ x, v = 0) :
    ¬ (ClippingModule.process x state).1.isClipping ∧
    (ClippingModule.process x state).1.totalClipEvents = 0 ∧
    ClippingStateSilent (ClippingModule.process x state).2 := by
  have hsil : ClippingStateSilent (state.getD ⟨0, ⊥, 0⟩) := by
    cases state with
    | none => exact ⟨rfl, rfl, rfl⟩
    | some s => exact hst
  set s1 := state.getD ⟨0, ⊥, 0⟩ with hs1
  obtain ⟨hhold, hpeak, hcount⟩ := hsil
  have hdb : linToDb (maxAbsSample x) = ⊥ := by
    rw [maxAbsSample_zeros x hx, linToDb, if_neg (by norm_num : ¬ (0:ℝ) < 0)]
  have hlt : ¬ (((-0.5 : ℝ) : EReal) < linToDb (maxAbsSample x)) := by
    rw [hdb]; exact not_lt_bot
  have hpeak0 : (if s1.peakDb = 0 then (⊥ : EReal) else s1.peakDb) = ⊥ := by
    rw [hpeak]
    split <;> rfl
  have hhold1 : (if ((-0.5 : ℝ) : EReal) < linToDb (maxAbsSample x) then 60
      else if 0 < s1.clipHold then s1.clipHold - 1 else s1.clipHold) = 0 := by
    rw [if_neg hlt, hhold]
    simp
  have hcount1 : (if ((-0.5 : ℝ) : EReal) < linToDb (maxAbsSample x)
      then s1.clipCount + 1 else s1.clipCount) = 0 := by
    rw [if_neg hlt, hcount]
  have hph : (if (if s1.peakDb = 0 then (⊥ : EReal) else s1.peakDb)
        < linToDb (maxAbsSample x)
      then linToDb (maxAbsSample x)
      else (if s1.peakDb = 0 then (⊥ : EReal) else s1.peakDb)) = ⊥ := by
    rw [hpeak0, hdb]
    simp
  refine ⟨?_, ?_, ?_, ?_, ?_⟩
  · show ¬ (((-0.5 : ℝ) : EReal) < linToDb (maxAbsSample x))
    exact hlt
  · show (if ((-0.5 : ℝ) : EReal) < linToDb (maxAbsSample x)
        then s1.clipCount + 1 else s1.clipCount) = 0
    exact hcount1
  · exact hhold1
  · exact hph
  · exact hcount1

theorem lufs_run_silent (sr : ℝ) (frames : List (List ℝ)) :
    (∀ f ∈ frames, ∀ v ∈ f, v = 0) →
    ∀ (acc : List LufsResult) (st : Option LufsState), LufsOptSilent st →
      (∀ r ∈ acc, r.momentary = ⊥ ∧ r.shortTerm = ⊥ ∧ r.integrated = ⊥) →
      (∀ r ∈ (frames.foldl (fun acc frame =>
          let step := LufsModule.process frame acc.2 sr
          (acc.1 ++ [step.1], some step.2)) (acc, st)).1,
        r.momentary = ⊥ ∧ r.shortTerm = ⊥ ∧ r.integrated = ⊥) := by
  induction frames with
  | nil => intro _ acc st _ hacc; exact hacc
  | cons f fs ih =>
    intro hz acc st hst hacc
    rw [List.foldl_cons]
    have hf : ∀ v ∈ f, v = 0 := hz f (List.mem_cons_self f fs)
    have hstep := lufs_process_silent f st sr hst hf
    refine ih (fun g hg => hz g (List.mem_cons_of_mem f hg))
      (acc ++ [(LufsModule.process f st sr).1])
      (some (LufsModule.process f st sr).2) hstep.2.2.2 ?_
    intro r hr
    rcases List.mem_append.mp hr with hl | hrr
    · exact hacc r hl
    · have : r = (LufsModule.process f st sr).1 := by simpa using hrr
      rw [this]
      exact ⟨hstep.1, hstep.2.1, hstep.2.2.1⟩

theorem clipping_run_silent (frames : List (List ℝ)) :
    (∀ f ∈ frames, ∀ v ∈ f, v = 0) →
    ∀ (acc : List ClippingResult) (st : Option ClippingState),
      ClippingOptSilent st →
      (∀ r ∈ acc, ¬ r.isClipping ∧ r.totalClipEvents = 0) →
      (∀ r ∈ (frames.foldl (fun acc frame =>
          let step := ClippingModule.process frame acc.2
          (acc.1 ++ [step.1], some step.2)) (acc, st)).1,
        ¬ r.isClipping ∧ r.totalClipEvents = 0) := by
  induction frames with
  | nil => intro _ acc st _ hacc; exact hacc
  | cons f fs ih =>
    intro hz acc st hst hacc
    rw [List.foldl_cons]
    have hf : ∀ v ∈ f, v = 0 := hz f (List.mem_cons_self f fs)
    have hstep := clipping_process_silent f st hst hf
    refine ih (fun g hg => hz g (List.mem_cons_of_mem f hg))
      (acc ++ [(ClippingModule.process f st).1])
      (some (ClippingModule.process f st).2) hstep.2.2 ?_
    intro r hr
    rcases List.mem_append.mp hr with hl | hrr
    · exact hacc r hl
    · have : r = (ClippingModule.process f st).1 := by simpa using hrr
      rw [this]
      exact ⟨hstep.1, hstep.2.1⟩

/-- C3: feeding only all-zero time-domain frames from a fresh state, every
frame of the loudness module reports momentary, short-term and integrated
loudness equal to negative infinity (no block ever passes the -70 LUFS
absolute gate, so the integrated value never leaves negative infinity), and
every frame of the clipping module reports isClipping false with
totalClipEvents 0. -/
theorem C3_silence_run (sr : ℝ) (frames : List (List ℝ))
    (hz : ∀ f ∈ frames, ∀ v ∈ f, v = 0) :
    (∀ r ∈ (LufsModule.run sr frames).1,
      r.momentary = ⊥ ∧ r.shortTerm = ⊥ ∧ r.integrated = ⊥) ∧
    (∀ r ∈ (ClippingModule.run frames).1,
      ¬ r.isClipping ∧ r.totalClipEvents = 0) := by
  constructor
  · exact lufs_run_silent sr frames hz [] none trivial (by intro r hr; cases hr)
  · exact clipping_run_silent frames hz [] none trivial (by intro r hr; cases hr)

/-- Witness for C3 on a concrete three-frame silent run. -/
theorem C3_witness :
    (∀ r ∈ (LufsModule.run 48000 [[0, 0], [0, 0], [0, 0]]).1,
      r.momentary = ⊥ ∧ r.shortTerm = ⊥ ∧ r.integrated = ⊥) ∧
    (∀ r ∈ (ClippingModule.run [[0, 0], [0, 0], [0, 0]]).1,
      ¬ r.isClipping ∧ r.totalClipEvents = 0) :=
  C3_silence_run 48000 [[0, 0], [0, 0], [0, 0]] (by
    intro f hf v hv
    simp only [List.mem_cons, List.not_mem_nil, or_false] at hf
    rcases hf with rfl | rfl | rfl <;> simpa using hv)

/-- C2: on every frame (from any state, including the fresh one), the
loudness-range output of the LUFS module equals the spread between the 10th
and 95th percentile (floor-index convention, values sorted ascending) of
the gated loudness values of the updated short-term window - where gating
keeps only positive block energies whose loudness exceeds -70 LUFS - and is
0 when fewer than two gated values exist; the updated short-term window is
the previous one with the current block mean-square energy pushed under
capacity 30. -/
theorem C2_lufs_lra (state : Option LufsState) (x : List ℝ) (sr : ℝ) :
    (LufsModule.process x state sr).1.lra =
      lraSpec (gatedShortTermLoudness
        (LufsModule.process x state sr).2.shortTermBuffer) ∧
    (LufsModule.process x state sr).2.shortTermBuffer =
      circularPush (state.getD (LufsModule.initState sr)).shortTermBuffer
        ((LufsModule.filterBlock
            (state.getD (LufsModule.initState sr)).preFilter
            (state.getD (LufsModule.initState sr)).hpFilter x).1 / x.length)
        30 :=
  ⟨rfl, rfl⟩

theorem optLtOpt_isSome (a b : Option ℝ) (h : optLtOpt a b) :
    a.isSome = true ∧ b.isSome = true := by
  cases a with
  | none => exact (show False from h).elim
  | some x =>
    cases b with
    | none => exact (show False from h).elim
    | some y => exact ⟨rfl, rfl⟩

theorem optLtReal_some (a : Option ℝ) (r : ℝ) (h : optLtReal a r) :
    ∃ v, a = some v ∧ v < r := by
  cases a with
  | none => exact (show False from h).elim
  | some x => exact ⟨x, rfl, h⟩

theorem yin_fallback_mem (c : ℕ → Option ℝ) (l : List ℕ) :
    ∀ (best : Option ℕ) (r : ℕ),
      l.foldl (fun best tau =>
        match best with
        | none => if (c tau).isSome then some tau else none
        | some b => if optLtOpt (c tau) (c b) then some tau else some b)
        best = some r →
      best = some r ∨ r ∈ l := by
  induction l with
  | nil => exact fun best r h => Or.inl h
  | cons x xs ih =>
    intro best r h
    rw [List.foldl_cons] at h
    rcases ih _ r h with h1 | h1
    · cases best with
      | none =>
        have h2 : (if (c x).isSome then some x else none) = some r := h1
        by_cases hx : (c x).isSome
        · rw [if_pos hx] at h2
          exact Or.inr (Option.some.inj h2 ▸ List.mem_cons_self x xs)
        · rw [if_neg hx] at h2
          exact (Option.noConfusion h2)
      | some b =>
        have h2 : (if optLtOpt (c x) (c b) then some x else some b)
            = some r := h1
        by_cases hc : optLtOpt (c x) (c b)
        · rw [if_pos hc] at h2
          exact Or.inr (Option.some.inj h2 ▸ List.mem_cons_self x xs)
        · rw [if_neg hc] at h2
          exact Or.inl h2
    · exact Or.inr (List.mem_cons_of_mem _ h1)

theorem yin_fallback_finite (c : ℕ → Option ℝ) (l : List ℕ) :
    ∀ best : Option ℕ,
      (∀ b, best = some b → (c b).isSome = true) →
      ∀ r : ℕ,
        l.foldl (fun best tau =>
          match best with
          | none => if (c tau).isSome then some tau else none
          | some b => if optLtOpt (c tau) (c b) then some tau else some b)
          best = some r →
        (c r).isSome = true := by
  induction l with
  | nil => exact fun best hb r h => hb r h
  | cons x xs ih =>
    intro best hb r h
    rw [List.foldl_cons] at h
    refine ih _ ?_ r h
    intro b1 hb1
    cases best with
    | none =>
      have h2 : (if (c x).isSome then some x else none) = some b1 := hb1
      by_cases hx : (c x).isSome
      · rw [if_pos hx] at h2
        exact Option.some.inj h2 ▸ hx
      · rw [if_neg hx] at h2
        exact (Option.noConfusion h2)
    | some b =>
      have h2 : (if optLtOpt (c x) (c b) then some x else some b)
          = some b1 := hb1
      by_cases hc : optLtOpt (c x) (c b)
      · rw [if_pos hc] at h2
        exact Option.some.inj h2 ▸ (optLtOpt_isSome _ _ hc).1
      · rw [if_neg hc] at h2
        exact hb b1 h2

theorem walkDown_ge (c : ℕ → Option ℝ) (hb : ℕ) :
    ∀ (fuel tau : ℕ), tau ≤ PitchModule.walkDown c hb fuel tau := by
  intro fuel
  induction fuel with
  | zero => intro tau; exact le_rfl
  | succ n ih =>
    intro tau
    rw [PitchModule.walkDown]
    split
    · exact le_trans (Nat.le_succ tau) (ih (tau + 1))
    · exact le_rfl

theorem walkDown_finite (c : ℕ → Option ℝ) (hb : ℕ) :
    ∀ (fuel tau : ℕ), (c tau).isSome = true →
      (c (PitchModule.walkDown c hb fuel tau)).isSome = true := by
  intro fuel
  induction fuel with
  | zero => exact fun tau h => h
  | succ n ih =>
    intro tau h
    rw [PitchModule.walkDown]
    by_cases hcond : tau + 1 < hb ∧ optLtOpt (c (tau + 1)) (c tau)
    · rw [if_pos hcond]
      exact ih (tau + 1) (optLtOpt_isSome _ _ hcond.2).1
    · rw [if_neg hcond]
      exact h

/-- Structure of a chosen YIN lag: it lies at 2 or above and its CMNDF is
a real value (not NaN), on both the threshold-scan path and the fallback
path. -/
theorem tauEstimate_choice (x : List ℝ) (hb : ℕ) (θ : ℝ) :
    ∀ tau : ℕ,
      PitchModule.tauEstimate (PitchModule.cmndf x) hb θ = some tau →
      2 ≤ tau ∧ (PitchModule.cmndf x tau).isSome = true := by
  intro tau h
  unfold PitchModule.tauEstimate at h
  cases hfb : PitchModule.firstBelow (PitchModule.cmndf x) hb θ with
  | some t =>
    rw [hfb] at h
    have h2 : some (PitchModule.walkDown (PitchModule.cmndf x) hb hb t)
        = some tau := h
    have hfb2 : (List.range' 2 (hb - 2)).find?
        (fun tau => decide (optLtReal (PitchModule.cmndf x tau) θ))
        = some t := hfb
    have hmem : t ∈ List.range' 2 (hb - 2) :=
      List.mem_of_find?_eq_some hfb2
    have ht : 2 ≤ t := (List.mem_range'_1.mp hmem).1
    have hfin : (PitchModule.cmndf x t).isSome = true := by
      have hp := List.find?_some hfb2
      have hp2 : decide (optLtReal (PitchModule.cmndf x t) θ) = true := hp
      obtain ⟨v, hv, _⟩ := optLtReal_some _ _ (of_decide_eq_true hp2)
      rw [hv]; rfl
    refine ⟨?_, ?_⟩
    · exact Option.some.inj h2 ▸ le_trans ht (walkDown_ge _ hb hb t)
    · exact Option.some.inj h2 ▸ walkDown_finite _ hb hb t hfin
  | none =>
    rw [hfb] at h
    have h2 : (List.range' 2 (hb - 2)).foldl (fun best tau =>
        match best with
        | none => if (PitchModule.cmndf x tau).isSome then some tau else none
        | some b => if optLtOpt (PitchModule.cmndf x tau)
            (PitchModule.cmndf x b) then some tau else some b)
        none = some tau := h
    refine ⟨?_, ?_⟩
    · rcases yin_fallback_mem (PitchModule.cmndf x) _ none tau h2 with
        h3 | h3
      · exact (Option.noConfusion h3)
      · exact (List.mem_range'_1.mp h3).1
    · exact yin_fallback_finite (PitchModule.cmndf x) _ none
        (fun b hb1 => (Option.noConfusion hb1)) tau h2

/-- C4 (amended): on every frame where YIN chooses a lag, the confidence
equals 1 minus the (real) CMNDF value at the chosen UNREFINED lag, clamped
to [0,1]; on frames where NO lag is chosen - halfBuffer at most 2, or a
NaN CMNDF at every candidate lag, as on silent and constant frames - the
sentinel branch returns confidence 0; the reported frequency equals the
raw frequency when confidence exceeds 0.5 (a comparison that is false on
a NaN confidence) and is 0 otherwise; and the raw frequency - exposed
unconditionally in rawFrequency - is the sample rate divided by the
parabolically refined lag (0 for a non-positive, NaN or infinite refined
lag). -/
theorem C4_pitch_confidence (x : List ℝ) (sr : ℝ) :
    (∀ tau : ℕ,
      PitchModule.tauEstimate (PitchModule.cmndf x) (x.length / 2) 0.15
        = some tau →
      ∃ v : ℝ, PitchModule.cmndf x tau = some v ∧
        (PitchModule.process x sr 0.15).confidence
          = some (clamp (1 - v) 0 1)) ∧
    (PitchModule.tauEstimate (PitchModule.cmndf x) (x.length / 2) 0.15
        = none →
      (PitchModule.process x sr 0.15).confidence = some 0) ∧
    ((PitchModule.process x sr 0.15).frequency
      = (if optGtReal (PitchModule.process x sr 0.15).confidence 0.5
         then (PitchModule.process x sr 0.15).rawFrequency else 0)) ∧
    ((PitchModule.process x sr 0.15).rawFrequency
      = (match PitchModule.refineTau (PitchModule.cmndf x) (x.length / 2)
            (PitchModule.tauEstimate (PitchModule.cmndf x) (x.length / 2)
              0.15) with
         | some b => if 0 < b then sr / b else 0
         | none => 0)) := by
  refine ⟨?_, ?_, rfl, rfl⟩
  · intro tau hte
    obtain ⟨h2, hsome⟩ := tauEstimate_choice x (x.length / 2) 0.15 tau hte
    obtain ⟨v, hv⟩ := Option.isSome_iff_exists.mp hsome
    refine ⟨v, hv, ?_⟩
    show (match PitchModule.tauEstimate (PitchModule.cmndf x) (x.length / 2)
        0.15 with
      | none => some (0 : ℝ)
      | some tau => if 0 < tau then
          match PitchModule.cmndf x tau with
          | some w => some (clamp (1 - w) 0 1)
          | none => none
        else some 0) = some (clamp (1 - v) 0 1)
    rw [hte]
    show (if 0 < tau then
        match PitchModule.cmndf x tau with
        | some w => some (clamp (1 - w) 0 1)
        | none => none
      else some (0 : ℝ)) = some (clamp (1 - v) 0 1)
    rw [if_pos (by omega), hv]
  · intro hte
    show (match PitchModule.tauEstimate (PitchModule.cmndf x) (x.length / 2)
        0.15 with
      | none => some (0 : ℝ)
      | some tau => if 0 < tau then
          match PitchModule.cmndf x tau with
          | some w => some (clamp (1 - w) 0 1)
          | none => none
        else some 0) = some 0
    rw [hte]

theorem pitch_concrete_cmndf2 :
    PitchModule.cmndf [1, 0, 1, 0, 1, 0] 2 = some 0 := by
  norm_num [PitchModule.cmndf, PitchModule.diff, List.range_succ]

theorem pitch_concrete_tau :
    PitchModule.tauEstimate (PitchModule.cmndf [1, 0, 1, 0, 1, 0])
      (([1, 0, 1, 0, 1, 0] : List ℝ).length / 2) 0.15 = some 2 := by
  have hfb : PitchModule.firstBelow (PitchModule.cmndf [1, 0, 1, 0, 1, 0])
      (([1, 0, 1, 0, 1, 0] : List ℝ).length / 2) 0.15 = some 2 := by
    unfold PitchModule.firstBelow
    show ([2] : List ℕ).find?
      (fun tau => decide (optLtReal
        (PitchModule.cmndf [1, 0, 1, 0, 1, 0] tau) 0.15)) = some 2
    refine List.find?_cons_of_pos _ ?_
    simp only [decide_eq_true_eq]
    rw [pitch_concrete_cmndf2]
    show (0 : ℝ) < 0.15
    norm_num
  unfold PitchModule.tauEstimate
  rw [hfb]
  show some (PitchModule.walkDown (PitchModule.cmndf [1, 0, 1, 0, 1, 0])
      (([1, 0, 1, 0, 1, 0] : List ℝ).length / 2)
      (([1, 0, 1, 0, 1, 0] : List ℝ).length / 2) 2) = some 2
  rw [show (([1, 0, 1, 0, 1, 0] : List ℝ).length / 2) = 3 from rfl]
  rw [PitchModule.walkDown]
  rw [if_neg (fun hcond => absurd hcond.1 (by norm_num))]

/-- Witness for C4 at a concrete six-sample frame on which the threshold
scan chooses lag 2. -/
theorem C4_witness :
    ∃ v : ℝ, PitchModule.cmndf [1, 0, 1, 0, 1, 0] 2 = some v ∧
      (PitchModule.process [1, 0, 1, 0, 1, 0] 48000 0.15).confidence
        = some (clamp (1 - v) 0 1) :=
  (C4_pitch_confidence [1, 0, 1, 0, 1, 0] 48000).1 2 pitch_concrete_tau

theorem pitch_silent_cmndf2 :
    PitchModule.cmndf [0, 0, 0, 0, 0, 0] 2 = none := by
  norm_num [PitchModule.cmndf, PitchModule.diff, List.range_succ]

/-- C4 counterexample: on the silent six-sample frame every difference
sum is zero, so the CMNDF is the JS 0/0 = NaN at every lag from 1 up;
neither the threshold scan (NaN < 0.15 is false) nor the global-minimum
fallback (NaN < Infinity is false) fires, so although halfBuffer is
3 > 2, NO lag is chosen: the sentinel -1 survives and the returned
confidence is the literal 0 of the sentinel branch - not 1 minus a CMNDF
value at a chosen lag - and the raw frequency is 0, refuting the claim's
for-every-frame reading. -/
theorem C4_counterexample :
    PitchModule.cmndf [0, 0, 0, 0, 0, 0] 2 = none ∧
    PitchModule.tauEstimate (PitchModule.cmndf [0, 0, 0, 0, 0, 0])
      (([0, 0, 0, 0, 0, 0] : List ℝ).length / 2) 0.15 = none ∧
    (PitchModule.process [0, 0, 0, 0, 0, 0] 48000 0.15).confidence
      = some 0 ∧
    (PitchModule.process [0, 0, 0, 0, 0, 0] 48000 0.15).rawFrequency
      = 0 := by
  have hc2 := pitch_silent_cmndf2
  have hfb : PitchModule.firstBelow (PitchModule.cmndf [0, 0, 0, 0, 0, 0])
      (([0, 0, 0, 0, 0, 0] : List ℝ).length / 2) 0.15 = none := by
    unfold PitchModule.firstBelow
    show ([2] : List ℕ).find?
      (fun tau => decide (optLtReal
        (PitchModule.cmndf [0, 0, 0, 0, 0, 0] tau) 0.15)) = none
    rw [List.find?_cons_of_neg _ ?_]
    · rfl
    · simp only [decide_eq_true_eq]
      rw [hc2]
      exact fun hfalse => hfalse
  have hte : PitchModule.tauEstimate (PitchModule.cmndf [0, 0, 0, 0, 0, 0])
      (([0, 0, 0, 0, 0, 0] : List ℝ).length / 2) 0.15 = none := by
    unfold PitchModule.tauEstimate
    rw [hfb]
    show ([2] : List ℕ).foldl (fun best tau =>
        match best with
        | none => if (PitchModule.cmndf [0, 0, 0, 0, 0, 0] tau).isSome
            then some tau else none
        | some b => if optLtOpt (PitchModule.cmndf [0, 0, 0, 0, 0, 0] tau)
            (PitchModule.cmndf [0, 0, 0, 0, 0, 0] b)
            then some tau else some b) none = none
    rw [List.foldl_cons, List.foldl_nil]
    show (if (PitchModule.cmndf [0, 0, 0, 0, 0, 0] 2).isSome
        then some 2 else none) = none
    rw [hc2]
    rfl
  refine ⟨hc2, hte, ?_, ?_⟩
  · show (match PitchModule.tauEstimate (PitchModule.cmndf [0, 0, 0, 0, 0, 0])
        (([0, 0, 0, 0, 0, 0] : List ℝ).length / 2) 0.15 with
      | none => some (0 : ℝ)
      | some tau => if 0 < tau then
          match PitchModule.cmndf [0, 0, 0, 0, 0, 0] tau with
          | some w => some (clamp (1 - w) 0 1)
          | none => none
        else some 0) = some 0
    rw [hte]
  · show (match PitchModule.refineTau (PitchModule.cmndf [0, 0, 0, 0, 0, 0])
        (([0, 0, 0, 0, 0, 0] : List ℝ).length / 2)
        (PitchModule.tauEstimate (PitchModule.cmndf [0, 0, 0, 0, 0, 0])
          (([0, 0, 0, 0, 0, 0] : List ℝ).length / 2) 0.15) with
      | some b => if (0 : ℝ) < b then (48000 : ℝ) / b else (0 : ℝ)
      | none => (0 : ℝ)) = (0 : ℝ)
    rw [hte]
    show (if (0 : ℝ) < -1 then (48000 : ℝ) / (-1) else 0) = 0
    rw [if_neg (by norm_num)]

theorem clamp01_nonneg (v : ℝ) : 0 ≤ clamp v 0 1 := le_max_left 0 _

theorem clamp01_le_one (v : ℝ) : clamp v 0 1 ≤ 1 :=
  max_le (by norm_num) (min_le_left 1 v)

theorem variance_nil : variance ([] : List ℝ) = none := if_pos rfl

theorem onset_confidence_eq (freq : List ℝ) (state : Option OnsetState)
    (sr : ℝ) (n : ℕ) (now : ℝ) :
    (OnsetModule.process freq state sr n now).1.confidence =
      (if 4 < (OnsetModule.process freq state sr n now).2.onsetTimes.length
       then
        match variance
            (OnsetModule.process freq state sr n now).2.bpmHistory with
        | some v => some (clamp (1 - v / 100) 0 1)
        | none => none
       else some 0) := rfl

/-- C5 (amended): the onset-module confidence is 0 on every frame on which
the onset-time buffer holds AT MOST 4 timestamps (hence in particular on
every frame before at least 4 onsets have been observed, and also still on
the frames with exactly 4); once MORE THAN 4 onsets have been observed it
is the inverse BPM-buffer-variance clamp, which lies in [0,1] whenever the
BPM buffer is nonempty; with more than 4 onsets and a still-empty BPM
buffer the source takes the variance of an empty array (0/0 = NaN) and
the returned confidence is NaN (`none`), not a value of [0,1]. -/
theorem C5_onset_confidence (freq : List ℝ) (state : Option OnsetState)
    (sr : ℝ) (n : ℕ) (now : ℝ) :
    ((OnsetModule.process freq state sr n now).2.onsetTimes.length ≤ 4 →
      (OnsetModule.process freq state sr n now).1.confidence = some 0) ∧
    (4 < (OnsetModule.process freq state sr n now).2.onsetTimes.length →
      (∀ v : ℝ,
        variance (OnsetModule.process freq state sr n now).2.bpmHistory
          = some v →
        (OnsetModule.process freq state sr n now).1.confidence
          = some (clamp (1 - v / 100) 0 1) ∧
        0 ≤ clamp (1 - v / 100) 0 1 ∧ clamp (1 - v / 100) 0 1 ≤ 1) ∧
      ((OnsetModule.process freq state sr n now).2.bpmHistory = [] →
        (OnsetModule.process freq state sr n now).1.confidence = none)) := by
  refine ⟨?_, ?_⟩
  · intro h
    rw [onset_confidence_eq, if_neg (by omega)]
  · intro h
    refine ⟨?_, ?_⟩
    · intro v hv
      refine ⟨?_, clamp01_nonneg _, clamp01_le_one _⟩
      rw [onset_confidence_eq, if_pos h, hv]
    · intro hnil
      rw [onset_confidence_eq, if_pos h, hnil, variance_nil]

/-- Witness for C5 at a concrete frame from the fresh state (first frame
never fires an onset, so at most 4 - here zero - timestamps exist and the
confidence is the number 0). -/
theorem C5_witness :
    (OnsetModule.process [10] none 4096 4096 0).1.confidence = some 0 :=
  (C5_onset_confidence [10] none 4096 4096 0).1 (by
    norm_num [OnsetModule.process, OnsetModule.onsetUpdate,
      OnsetModule.initState, OnsetModule.fluxOf, circularPush, mean,
      round_eq, List.range_succ])

/-- C5 counterexample: drive the onset module from a fresh state with an
alternating click spectrum at 4096 Hz sample rate and FFT size 4096
(minimum onset gap 0 frames), clicks 500 ms apart.  The seven-frame prefix
is computed explicitly; the eighth frame fires the fourth onset, so 4
onsets have been observed (4 timestamps buffered) and the BPM buffer holds
the single value 60, whose inverse-variance clamp is 1 - yet the returned
confidence is the number 0, because the source condition reads
`state.onsetTimes.length > 4`, not `>= 4`. -/
theorem C5_counterexample :
    OnsetModule.runState 4096 4096
      [([0], 500), ([10], 1000), ([0], 1500), ([10], 2000),
       ([0], 2500), ([10], 3000), ([0], 3500)] none
      = some ⟨[0], [1000, 2000, 3000], 6, 7, [], 0,
          [0, 10, 0, 10, 0, 10, 0]⟩ ∧
    (OnsetModule.process [10]
      (some ⟨[0], [1000, 2000, 3000], 6, 7, [], 0, [0, 10, 0, 10, 0, 10, 0]⟩)
      4096 4096 4000).2.onsetTimes.length = 4 ∧
    (OnsetModule.process [10]
      (some ⟨[0], [1000, 2000, 3000], 6, 7, [], 0, [0, 10, 0, 10, 0, 10, 0]⟩)
      4096 4096 4000).1.confidence = some 0 ∧
    (variance (OnsetModule.process [10]
      (some ⟨[0], [1000, 2000, 3000], 6, 7, [], 0, [0, 10, 0, 10, 0, 10, 0]⟩)
      4096 4096 4000).2.bpmHistory).map
        (fun v => clamp (1 - v / 100) 0 1) = some 1 := by
  have h1 : (OnsetModule.process [0] none 4096 4096 500).2
      = ⟨[0], [], 0, 1, [], 0, [0]⟩ := by
    norm_num [OnsetModule.process, OnsetModule.onsetUpdate,
      OnsetModule.initState, OnsetModule.fluxOf, circularPush, mean,
      round_eq, List.range_succ]
  have h2 : (OnsetModule.process [10]
      (some (⟨[0], [], 0, 1, [], 0, [0]⟩ : OnsetState)) 4096 4096 1000).2
      = ⟨[10], [1000], 2, 2, [], 0, [0, 10]⟩ := by
    norm_num [OnsetModule.process, OnsetModule.onsetUpdate,
      OnsetModule.fluxOf, circularPush, mean, round_eq, List.range_succ]
  have h3 : (OnsetModule.process [0]
      (some (⟨[10], [1000], 2, 2, [], 0, [0, 10]⟩ : OnsetState))
      4096 4096 1500).2
      = ⟨[0], [1000], 2, 3, [], 0, [0, 10, 0]⟩ := by
    norm_num [OnsetModule.process, OnsetModule.onsetUpdate,
      OnsetModule.fluxOf, circularPush, mean, round_eq, List.range_succ]
  have h4 : (OnsetModule.process [10]
      (some (⟨[0], [1000], 2, 3, [], 0, [0, 10, 0]⟩ : OnsetState))
      4096 4096 2000).2
      = ⟨[10], [1000, 2000], 4, 4, [], 0, [0, 10, 0, 10]⟩ := by
    norm_num [OnsetModule.process, OnsetModule.onsetUpdate,
      OnsetModule.fluxOf, circularPush, mean, round_eq, List.range_succ]
  have h5 : (OnsetModule.process [0]
      (some (⟨[10], [1000, 2000], 4, 4, [], 0, [0, 10, 0, 10]⟩ : OnsetState))
      4096 4096 2500).2
      = ⟨[0], [1000, 2000], 4, 5, [], 0, [0, 10, 0, 10, 0]⟩ := by
    norm_num [OnsetModule.process, OnsetModule.onsetUpdate,
      OnsetModule.fluxOf, circularPush, mean, round_eq, List.range_succ]
  have h6 : (OnsetModule.process [10]
      (some (⟨[0], [1000, 2000], 4, 5, [], 0, [0, 10, 0, 10, 0]⟩ : OnsetState))
      4096 4096 3000).2
      = ⟨[10], [1000, 2000, 3000], 6, 6, [], 0, [0, 10, 0, 10, 0, 10]⟩ := by
    norm_num [OnsetModule.process, OnsetModule.onsetUpdate,
      OnsetModule.fluxOf, circularPush, mean, round_eq, List.range_succ]
  have h7 : (OnsetModule.process [0]
      (some (⟨[10], [1000, 2000, 3000], 6, 6, [], 0,
        [0, 10, 0, 10, 0, 10]⟩ : OnsetState)) 4096 4096 3500).2
      = ⟨[0], [1000, 2000, 3000], 6, 7, [], 0, [0, 10, 0, 10, 0, 10, 0]⟩ := by
    norm_num [OnsetModule.process, OnsetModule.onsetUpdate,
      OnsetModule.fluxOf, circularPush, mean, round_eq, List.range_succ]
  have h8 : (OnsetModule.process [10]
      (some (⟨[0], [1000, 2000, 3000], 6, 7, [], 0,
        [0, 10, 0, 10, 0, 10, 0]⟩ : OnsetState)) 4096 4096 4000).2
      = ⟨[10], [1000, 2000, 3000, 4000], 8, 8, [60], 60,
          [0, 10, 0, 10, 0, 10, 0, 10]⟩ := by
    norm_num [OnsetModule.process, OnsetModule.onsetUpdate,
      OnsetModule.fluxOf, circularPush, mean, round_eq, List.range_succ]
  refine ⟨?_, ?_, ?_, ?_⟩
  · simp only [OnsetModule.runState, List.foldl_cons, List.foldl_nil]
    rw [h1, h2, h3, h4, h5, h6, h7]
  · rw [h8]
    rfl
  · norm_num [OnsetModule.process, OnsetModule.onsetUpdate,
      OnsetModule.fluxOf, circularPush, mean, round_eq, List.range_succ]
  · rw [h8]
    norm_num [clamp, variance, mean, Option.map_some]

theorem clamp_le_hi (v lo hi : ℝ) (h : lo ≤ hi) : clamp v lo hi ≤ hi :=
  max_le h (min_le_left hi v)

/-- C6 (amended): an absent (zero, falsy) or below-20 Hz fundamental makes
the THD module return the bare neutral zero record - thd 0, empty
harmonics list, and NO further fields, in particular no explicit
not-applicable marker; for every valid fundamental the returned thd is
clamped to [0, 100]. -/
theorem C6_thd_neutral (freqData : List ℝ) (sr : ℝ) (n : ℕ) (fund : ℝ) :
    (fund = 0 ∨ fund < 20 →
      ThdModule.process freqData sr n fund = ⟨0, [], none⟩) ∧
    (¬ (fund = 0 ∨ fund < 20) →
      0 ≤ (ThdModule.process freqData sr n fund).thd ∧
      (ThdModule.process freqData sr n fund).thd ≤ 100) := by
  constructor
  · intro h
    unfold ThdModule.process
    rw [if_pos h]
  · intro h
    unfold ThdModule.process
    rw [if_neg h]
    exact ⟨le_max_left 0 _, clamp_le_hi _ 0 100 (by norm_num)⟩

/-- Witness for C6 at concrete fundamentals 10 Hz (neutral) and 100 Hz
(valid, clamped). -/
theorem C6_witness :
    ThdModule.process [] 48000 16 10 = ⟨0, [], none⟩ ∧
    (0 ≤ (ThdModule.process [] 48000 16 100).thd ∧
     (ThdModule.process [] 48000 16 100).thd ≤ 100) :=
  ⟨(C6_thd_neutral [] 48000 16 10).1 (Or.inr (by norm_num)),
   (C6_thd_neutral [] 48000 16 100).2 (by push_neg; norm_num)⟩

/-- C6 counterexample: at the concrete invalid fundamental 10 Hz the
result is exactly the record with thd 0, empty harmonics and extra none -
the record carries nothing beyond the neutral zero fields, so the claimed
explicit not-applicable marker does not exist (contrast the inharmonicity
module, whose neutral result does carry the string marker). -/
theorem C6_counterexample :
    ThdModule.process [] 48000 16 10 = ⟨0, [], none⟩ ∧
    (ThdModule.process [] 48000 16 10).extra = none := by
  have h : ThdModule.process [] 48000 16 10 = ⟨0, [], none⟩ := by
    unfold ThdModule.process
    rw [if_pos (Or.inr (by norm_num))]
  exact ⟨h, by rw [h]⟩

theorem mfcc_run_cached (calls : List (List ℝ × ℝ × ℕ)) :
    ∀ (acc : List (List (List ℝ))) (b : List (List ℝ)),
      (∀ x ∈ acc, x = b) →
      ∀ x ∈ (calls.foldl (fun acc c =>
          let step := MfccModule.process acc.2 c.1 c.2.1 c.2.2 13
          (acc.1 ++ [step.2], some step.2)) (acc, some b)).1, x = b := by
  induction calls with
  | nil => intro acc b hacc x hx; exact hacc x hx
  | cons c cs ih =>
    intro acc b hacc x hx
    rw [List.foldl_cons] at hx
    refine ih (acc ++ [(MfccModule.process (some b) c.1 c.2.1 c.2.2 13).2])
      b ?_ x hx
    intro y hy
    rcases List.mem_append.mp hy with hl | hr
    · exact hacc y hl
    · have : y = (MfccModule.process (some b) c.1 c.2.1 c.2.2 13).2 := by
        simpa using hr
      rw [this]
      rfl

/-- C7 (amended): the mel filterbank is built once and cached GLOBALLY on
the first process call, not per (sampleRate, fftSize) pair: in every run
from a fresh cache, every call applies the 26-filter 20 Hz - 8000 Hz
triangular filterbank constructed for the FIRST call's sample rate and FFT
size, whatever the later calls' parameters are. -/
theorem C7_mfcc_global_cache (c0 : List ℝ × ℝ × ℕ)
    (calls : List (List ℝ × ℝ × ℕ)) :
    ∀ bank ∈ (MfccModule.runCalls (c0 :: calls) none).1,
      bank = MfccModule.buildMelFilterbank c0.2.1 c0.2.2 := by
  intro bank hb
  rw [MfccModule.runCalls, List.foldl_cons] at hb
  refine mfcc_run_cached calls
    ([] ++ [(MfccModule.process none c0.1 c0.2.1 c0.2.2 13).2])
    (MfccModule.buildMelFilterbank c0.2.1 c0.2.2) ?_ bank hb
  intro y hy
  have : y = (MfccModule.process none c0.1 c0.2.1 c0.2.2 13).2 := by
    simpa using hy
  rw [this]
  rfl

/-- Witness for C7: a concrete single-call run from the fresh cache (the
run result list is definitionally the singleton holding the bank the first
call applied). -/
theorem C7_witness :
    (MfccModule.process none [] 8000 16 13).2
      = MfccModule.buildMelFilterbank 8000 16 :=
  C7_mfcc_global_cache ([], 8000, 16) []
    ((MfccModule.process none [] 8000 16 13).2)
    (List.mem_singleton_self _)

theorem buildMelFilterbank_first_length (sr : ℝ) (n : ℕ) :
    ((MfccModule.buildMelFilterbank sr n).getD 0 []).length = n / 2 := by
  simp only [MfccModule.buildMelFilterbank, List.getD_eq_getElem?_getD,
    List.getElem?_map, List.getElem?_range (by norm_num : (0 : ℕ) < 26),
    Option.map_some', Option.getD_some, List.length_map, List.length_range]

/-- C7 counterexample: after a first call with sample rate 8000 and FFT
size 16, a second call with FFT size 8 applies the cached bank (whose
filters have 8 slots), which is NOT the filterbank built for the second
call's pair (whose filters would have 4 slots) - the cache is not keyed on
the (sampleRate, fftSize) pair. -/
theorem C7_counterexample :
    (MfccModule.process (some (MfccModule.process none [] 8000 16 13).2)
        [] 8000 8 13).2
      ≠ MfccModule.buildMelFilterbank 8000 8 := by
  intro h
  have h2 : (MfccModule.process (some (MfccModule.process none [] 8000 16 13).2)
      [] 8000 8 13).2 = MfccModule.buildMelFilterbank 8000 16 := rfl
  rw [h2] at h
  have h3 : ((MfccModule.buildMelFilterbank 8000 16).getD 0 []).length
      = ((MfccModule.buildMelFilterbank 8000 8).getD 0 []).length :=
    congrArg (fun l => (l.getD 0 []).length) h
  rw [buildMelFilterbank_first_length, buildMelFilterbank_first_length] at h3
  norm_num at h3
theorem processFrame_states_clipping (e : Engine) (f : FrameInput) :
    (OrdoAudio.processFrame e f).2.states.clipping =
      (if "clipping" ∈ e.active then some (ClippingModule.process f.timeData e.states.clipping).2
       else e.states.clipping) := by
  by_cases hc : "clipping" ∈ e.active
  · rw [if_pos hc]
    show (match (if "clipping" ∈ e.active then some (ClippingModule.process f.timeData e.states.clipping)
        else none) with
      | some p => some p.2
      | none => e.states.clipping) = _
    rw [if_pos hc]
  · rw [if_neg hc]
    show (match (if "clipping" ∈ e.active then some (ClippingModule.process f.timeData e.states.clipping)
        else none) with
      | some p => some p.2
      | none => e.states.clipping) = _
    rw [if_neg hc]

theorem processFrame_states_dynamics (e : Engine) (f : FrameInput) :
    (OrdoAudio.processFrame e f).2.states.dynamics =
      (if "dynamics" ∈ e.active then some (DynamicsModule.process f.timeData e.states.dynamics).2
       else e.states.dynamics) := by
  by_cases hc : "dynamics" ∈ e.active
  · rw [if_pos hc]
    show (match (if "dynamics" ∈ e.active then some (DynamicsModule.process f.timeData e.states.dynamics)
        else none) with
      | some p => some p.2
      | none => e.states.dynamics) = _
    rw [if_pos hc]
  · rw [if_neg hc]
    show (match (if "dynamics" ∈ e.active then some (DynamicsModule.process f.timeData e.states.dynamics)
        else none) with
      | some p => some p.2
      | none => e.states.dynamics) = _
    rw [if_neg hc]

theorem processFrame_states_truePeak (e : Engine) (f : FrameInput) :
    (OrdoAudio.processFrame e f).2.states.truePeak =
      (if "truePeak" ∈ e.active then some (TruePeakModule.process f.timeData e.states.truePeak).2
       else e.states.truePeak) := by
  by_cases hc : "truePeak" ∈ e.active
  · rw [if_pos hc]
    show (match (if "truePeak" ∈ e.active then some (TruePeakModule.process f.timeData e.states.truePeak)
        else none) with
      | some p => some p.2
      | none => e.states.truePeak) = _
    rw [if_pos hc]
  · rw [if_neg hc]
    show (match (if "truePeak" ∈ e.active then some (TruePeakModule.process f.timeData e.states.truePeak)
        else none) with
      | some p => some p.2
      | none => e.states.truePeak) = _
    rw [if_neg hc]

theorem processFrame_states_lufs (e : Engine) (f : FrameInput) :
    (OrdoAudio.processFrame e f).2.states.lufs =
      (if "lufs" ∈ e.active then some (LufsModule.process f.timeData e.states.lufs f.sampleRate).2
       else e.states.lufs) := by
  by_cases hc : "lufs" ∈ e.active
  · rw [if_pos hc]
    show (match (if "lufs" ∈ e.active then some (LufsModule.process f.timeData e.states.lufs f.sampleRate)
        else none) with
      | some p => some p.2
      | none => e.states.lufs) = _
    rw [if_pos hc]
  · rw [if_neg hc]
    show (match (if "lufs" ∈ e.active then some (LufsModule.process f.timeData e.states.lufs f.sampleRate)
        else none) with
      | some p => some p.2
      | none => e.states.lufs) = _
    rw [if_neg hc]

theorem processFrame_states_onset (e : Engine) (f : FrameInput) :
    (OrdoAudio.processFrame e f).2.states.onset =
      (if "onset" ∈ e.active then some (OnsetModule.process f.freqData e.states.onset f.sampleRate f.fftSize f.now).2
       else e.states.onset) := by
  by_cases hc : "onset" ∈ e.active
  · rw [if_pos hc]
    show (match (if "onset" ∈ e.active then some (OnsetModule.process f.freqData e.states.onset f.sampleRate f.fftSize f.now)
        else none) with
      | some p => some p.2
      | none => e.states.onset) = _
    rw [if_pos hc]
  · rw [if_neg hc]
    show (match (if "onset" ∈ e.active then some (OnsetModule.process f.freqData e.states.onset f.sampleRate f.fftSize f.now)
        else none) with
      | some p => some p.2
      | none => e.states.onset) = _
    rw [if_neg hc]

theorem processFrame_states_snr (e : Engine) (f : FrameInput) :
    (OrdoAudio.processFrame e f).2.states.snr =
      (if "snr" ∈ e.active then some (SnrModule.process f.freqData e.states.snr).2
       else e.states.snr) := by
  by_cases hc : "snr" ∈ e.active
  · rw [if_pos hc]
    show (match (if "snr" ∈ e.active then some (SnrModule.process f.freqData e.states.snr)
        else none) with
      | some p => some p.2
      | none => e.states.snr) = _
    rw [if_pos hc]
  · rw [if_neg hc]
    show (match (if "snr" ∈ e.active then some (SnrModule.process f.freqData e.states.snr)
        else none) with
      | some p => some p.2
      | none => e.states.snr) = _
    rw [if_neg hc]

theorem processFrame_states_feedback (e : Engine) (f : FrameInput) :
    (OrdoAudio.processFrame e f).2.states.feedback =
      (if "feedback" ∈ e.active then some (FeedbackModule.process f.freqData f.sampleRate f.fftSize e.states.feedback).2
       else e.states.feedback) := by
  by_cases hc : "feedback" ∈ e.active
  · rw [if_pos hc]
    show (match (if "feedback" ∈ e.active then some (FeedbackModule.process f.freqData f.sampleRate f.fftSize e.states.feedback)
        else none) with
      | some p => some p.2
      | none => e.states.feedback) = _
    rw [if_pos hc]
  · rw [if_neg hc]
    show (match (if "feedback" ∈ e.active then some (FeedbackModule.process f.freqData f.sampleRate f.fftSize e.states.feedback)
        else none) with
      | some p => some p.2
      | none => e.states.feedback) = _
    rw [if_neg hc]

theorem processFrame_states_rt60 (e : Engine) (f : FrameInput) :
    (OrdoAudio.processFrame e f).2.states.rt60 =
      (if "rt60" ∈ e.active then some (Rt60Module.process f.timeData f.sampleRate e.states.rt60 f.now).2
       else e.states.rt60) := by
  by_cases hc : "rt60" ∈ e.active
  · rw [if_pos hc]
    show (match (if "rt60" ∈ e.active then some (Rt60Module.process f.timeData f.sampleRate e.states.rt60 f.now)
        else none) with
      | some p => some p.2
      | none => e.states.rt60) = _
    rw [if_pos hc]
  · rw [if_neg hc]
    show (match (if "rt60" ∈ e.active then some (Rt60Module.process f.timeData f.sampleRate e.states.rt60 f.now)
        else none) with
      | some p => some p.2
      | none => e.states.rt60) = _
    rw [if_neg hc]

theorem processFrame_states_standingWaves (e : Engine) (f : FrameInput) :
    (OrdoAudio.processFrame e f).2.states.standingWaves =
      (if "standingWaves" ∈ e.active then some (StandingWaveModule.process f.freqData f.sampleRate f.fftSize e.states.standingWaves).2
       else e.states.standingWaves) := by
  by_cases hc : "standingWaves" ∈ e.active
  · rw [if_pos hc]
    show (match (if "standingWaves" ∈ e.active then some (StandingWaveModule.process f.freqData f.sampleRate f.fftSize e.states.standingWaves)
        else none) with
      | some p => some p.2
      | none => e.states.standingWaves) = _
    rw [if_pos hc]
  · rw [if_neg hc]
    show (match (if "standingWaves" ∈ e.active then some (StandingWaveModule.process f.freqData f.sampleRate f.fftSize e.states.standingWaves)
        else none) with
      | some p => some p.2
      | none => e.states.standingWaves) = _
    rw [if_neg hc]

theorem processFrame_states_mfcc (e : Engine) (f : FrameInput) :
    (OrdoAudio.processFrame e f).2.states.mfccCache =
      (if "mfcc" ∈ e.active then some (MfccModule.process e.states.mfccCache f.freqData f.sampleRate f.fftSize 13).2
       else e.states.mfccCache) := by
  by_cases hc : "mfcc" ∈ e.active
  · rw [if_pos hc]
    show (match (if "mfcc" ∈ e.active then some (MfccModule.process e.states.mfccCache f.freqData f.sampleRate f.fftSize 13)
        else none) with
      | some p => some p.2
      | none => e.states.mfccCache) = _
    rw [if_pos hc]
  · rw [if_neg hc]
    show (match (if "mfcc" ∈ e.active then some (MfccModule.process e.states.mfccCache f.freqData f.sampleRate f.fftSize 13)
        else none) with
      | some p => some p.2
      | none => e.states.mfccCache) = _
    rw [if_neg hc]

theorem processFrame_result_clipping (e : Engine) (f : FrameInput) :
    (OrdoAudio.processFrame e f).1.clipping =
      (if "clipping" ∈ e.active then some (ClippingModule.process f.timeData e.states.clipping).1 else none) := by
  by_cases hc : "clipping" ∈ e.active
  · rw [if_pos hc]
    show (Option.map (fun p => p.1) (if "clipping" ∈ e.active then
        some (ClippingModule.process f.timeData e.states.clipping) else none)) = _
    rw [if_pos hc]
    rfl
  · rw [if_neg hc]
    show (Option.map (fun p => p.1) (if "clipping" ∈ e.active then
        some (ClippingModule.process f.timeData e.states.clipping) else none)) = none
    rw [if_neg hc]
    rfl

theorem processFrame_result_dynamics (e : Engine) (f : FrameInput) :
    (OrdoAudio.processFrame e f).1.dynamics =
      (if "dynamics" ∈ e.active then some (DynamicsModule.process f.timeData e.states.dynamics).1 else none) := by
  by_cases hc : "dynamics" ∈ e.active
  · rw [if_pos hc]
    show (Option.map (fun p => p.1) (if "dynamics" ∈ e.active then
        some (DynamicsModule.process f.timeData e.states.dynamics) else none)) = _
    rw [if_pos hc]
    rfl
  · rw [if_neg hc]
    show (Option.map (fun p => p.1) (if "dynamics" ∈ e.active then
        some (DynamicsModule.process f.timeData e.states.dynamics) else none)) = none
    rw [if_neg hc]
    rfl

theorem processFrame_result_truePeak (e : Engine) (f : FrameInput) :
    (OrdoAudio.processFrame e f).1.truePeak =
      (if "truePeak" ∈ e.active then some (TruePeakModule.process f.timeData e.states.truePeak).1 else none) := by
  by_cases hc : "truePeak" ∈ e.active
  · rw [if_pos hc]
    show (Option.map (fun p => p.1) (if "truePeak" ∈ e.active then
        some (TruePeakModule.process f.timeData e.states.truePeak) else none)) = _
    rw [if_pos hc]
    rfl
  · rw [if_neg hc]
    show (Option.map (fun p => p.1) (if "truePeak" ∈ e.active then
        some (TruePeakModule.process f.timeData e.states.truePeak) else none)) = none
    rw [if_neg hc]
    rfl

theorem processFrame_result_lufs (e : Engine) (f : FrameInput) :
    (OrdoAudio.processFrame e f).1.lufs =
      (if "lufs" ∈ e.active then some (LufsModule.process f.timeData e.states.lufs f.sampleRate).1 else none) := by
  by_cases hc : "lufs" ∈ e.active
  · rw [if_pos hc]
    show (Option.map (fun p => p.1) (if "lufs" ∈ e.active then
        some (LufsModule.process f.timeData e.states.lufs f.sampleRate) else none)) = _
    rw [if_pos hc]
    rfl
  · rw [if_neg hc]
    show (Option.map (fun p => p.1) (if "lufs" ∈ e.active then
        some (LufsModule.process f.timeData e.states.lufs f.sampleRate) else none)) = none
    rw [if_neg hc]
    rfl

theorem processFrame_result_onset (e : Engine) (f : FrameInput) :
    (OrdoAudio.processFrame e f).1.onset =
      (if "onset" ∈ e.active then some (OnsetModule.process f.freqData e.states.onset f.sampleRate f.fftSize f.now).1 else none) := by
  by_cases hc : "onset" ∈ e.active
  · rw [if_pos hc]
    show (Option.map (fun p => p.1) (if "onset" ∈ e.active then
        some (OnsetModule.process f.freqData e.states.onset f.sampleRate f.fftSize f.now) else none)) = _
    rw [if_pos hc]
    rfl
  · rw [if_neg hc]
    show (Option.map (fun p => p.1) (if "onset" ∈ e.active then
        some (OnsetModule.process f.freqData e.states.onset f.sampleRate f.fftSize f.now) else none)) = none
    rw [if_neg hc]
    rfl

theorem processFrame_result_snr (e : Engine) (f : FrameInput) :
    (OrdoAudio.processFrame e f).1.snr =
      (if "snr" ∈ e.active then some (SnrModule.process f.freqData e.states.snr).1 else none) := by
  by_cases hc : "snr" ∈ e.active
  · rw [if_pos hc]
    show (Option.map (fun p => p.1) (if "snr" ∈ e.active then
        some (SnrModule.process f.freqData e.states.snr) else none)) = _
    rw [if_pos hc]
    rfl
  · rw [if_neg hc]
    show (Option.map (fun p => p.1) (if "snr" ∈ e.active then
        some (SnrModule.process f.freqData e.states.snr) else none)) = none
    rw [if_neg hc]
    rfl

theorem processFrame_result_feedback (e : Engine) (f : FrameInput) :
    (OrdoAudio.processFrame e f).1.feedback =
      (if "feedback" ∈ e.active then some (FeedbackModule.process f.freqData f.sampleRate f.fftSize e.states.feedback).1 else none) := by
  by_cases hc : "feedback" ∈ e.active
  · rw [if_pos hc]
    show (Option.map (fun p => p.1) (if "feedback" ∈ e.active then
        some (FeedbackModule.process f.freqData f.sampleRate f.fftSize e.states.feedback) else none)) = _
    rw [if_pos hc]
    rfl
  · rw [if_neg hc]
    show (Option.map (fun p => p.1) (if "feedback" ∈ e.active then
        some (FeedbackModule.process f.freqData f.sampleRate f.fftSize e.states.feedback) else none)) = none
    rw [if_neg hc]
    rfl

theorem processFrame_result_rt60 (e : Engine) (f : FrameInput) :
    (OrdoAudio.processFrame e f).1.rt60 =
      (if "rt60" ∈ e.active then some (Rt60Module.process f.timeData f.sampleRate e.states.rt60 f.now).1 else none) := by
  by_cases hc : "rt60" ∈ e.active
  · rw [if_pos hc]
    show (Option.map (fun p => p.1) (if "rt60" ∈ e.active then
        some (Rt60Module.process f.timeData f.sampleRate e.states.rt60 f.now) else none)) = _
    rw [if_pos hc]
    rfl
  · rw [if_neg hc]
    show (Option.map (fun p => p.1) (if "rt60" ∈ e.active then
        some (Rt60Module.process f.timeData f.sampleRate e.states.rt60 f.now) else none)) = none
    rw [if_neg hc]
    rfl

theorem processFrame_result_standingWaves (e : Engine) (f : FrameInput) :
    (OrdoAudio.processFrame e f).1.standingWaves =
      (if "standingWaves" ∈ e.active then some (StandingWaveModule.process f.freqData f.sampleRate f.fftSize e.states.standingWaves).1 else none) := by
  by_cases hc : "standingWaves" ∈ e.active
  · rw [if_pos hc]
    show (Option.map (fun p => p.1) (if "standingWaves" ∈ e.active then
        some (StandingWaveModule.process f.freqData f.sampleRate f.fftSize e.states.standingWaves) else none)) = _
    rw [if_pos hc]
    rfl
  · rw [if_neg hc]
    show (Option.map (fun p => p.1) (if "standingWaves" ∈ e.active then
        some (StandingWaveModule.process f.freqData f.sampleRate f.fftSize e.states.standingWaves) else none)) = none
    rw [if_neg hc]
    rfl

theorem processFrame_result_mfcc (e : Engine) (f : FrameInput) :
    (OrdoAudio.processFrame e f).1.mfcc =
      (if "mfcc" ∈ e.active then some (MfccModule.process e.states.mfccCache f.freqData f.sampleRate f.fftSize 13).1 else none) := by
  by_cases hc : "mfcc" ∈ e.active
  · rw [if_pos hc]
    show (Option.map (fun p => p.1) (if "mfcc" ∈ e.active then
        some (MfccModule.process e.states.mfccCache f.freqData f.sampleRate f.fftSize 13) else none)) = _
    rw [if_pos hc]
    rfl
  · rw [if_neg hc]
    show (Option.map (fun p => p.1) (if "mfcc" ∈ e.active then
        some (MfccModule.process e.states.mfccCache f.freqData f.sampleRate f.fftSize 13) else none)) = none
    rw [if_neg hc]
    rfl

theorem processFrame_result_dcOffset (e : Engine) (f : FrameInput) :
    (OrdoAudio.processFrame e f).1.dcOffset =
      (if "dcOffset" ∈ e.active then some (DcOffsetModule.process f.timeData) else none) := rfl

theorem processFrame_result_zcr (e : Engine) (f : FrameInput) :
    (OrdoAudio.processFrame e f).1.zcr =
      (if "zcr" ∈ e.active then some (ZcrModule.process f.timeData f.sampleRate) else none) := rfl

theorem processFrame_result_rta (e : Engine) (f : FrameInput) :
    (OrdoAudio.processFrame e f).1.rta =
      (if "rta" ∈ e.active then some (RtaModule.process f.freqData f.sampleRate f.fftSize) else none) := rfl

theorem processFrame_result_spectral (e : Engine) (f : FrameInput) :
    (OrdoAudio.processFrame e f).1.spectral =
      (if "spectral" ∈ e.active then some (SpectralFeaturesModule.process f.freqData f.sampleRate f.fftSize) else none) := rfl

theorem processFrame_result_pitch (e : Engine) (f : FrameInput) :
    (OrdoAudio.processFrame e f).1.pitch =
      (if "pitch" ∈ e.active then some (PitchModule.process f.timeData f.sampleRate 0.15) else none) := rfl

theorem processFrame_result_chroma (e : Engine) (f : FrameInput) :
    (OrdoAudio.processFrame e f).1.chroma =
      (if "chroma" ∈ e.active then some (ChromagramModule.process f.freqData f.sampleRate f.fftSize) else none) := rfl

theorem processFrame_result_phase (e : Engine) (f : FrameInput) :
    (OrdoAudio.processFrame e f).1.phase =
      (if "phase" ∈ e.active then some (PhaseModule.process f.timeData none) else none) := rfl

theorem processFrame_result_thd (e : Engine) (f : FrameInput) :
    (OrdoAudio.processFrame e f).1.thd =
      (if "thd" ∈ e.active then
        (if "pitch" ∈ e.active then
          some (PitchModule.process f.timeData f.sampleRate 0.15)
         else none).map (fun p => ThdModule.process f.freqData f.sampleRate f.fftSize p.frequency)
       else none) := rfl

theorem processFrame_result_inharmonicity (e : Engine) (f : FrameInput) :
    (OrdoAudio.processFrame e f).1.inharmonicity =
      (if "inharmonicity" ∈ e.active then
        (if "pitch" ∈ e.active then
          some (PitchModule.process f.timeData f.sampleRate 0.15)
         else none).map (fun p => InharmonicityModule.process f.freqData f.sampleRate f.fftSize p.frequency)
       else none) := rfl

/-- C8: for every module m of the catalog and every frame processed while
m is disabled, the accumulated state slot of m is left completely
unchanged and the frame result record carries no field for m; the
disable/enable operations themselves never touch the accumulated states;
and whenever m is enabled, its output for the frame is computed by
applying the module to the previously accumulated state - re-enabling
therefore resumes from the accumulated history rather than from a reset
state. -/
theorem C8_module_isolation (e : Engine) (f : FrameInput) (m : String) :
    (m ∉ e.active →
      moduleStatePreserved m e.states (OrdoAudio.processFrame e f).2.states ∧
      resultOmits m (OrdoAudio.processFrame e f).1) ∧
    ((OrdoAudio.disable e [m]).states = e.states ∧
     (OrdoAudio.enable e [m]).states = e.states) ∧
    (m ∈ e.active → resultResumes m e f (OrdoAudio.processFrame e f).1) := by
  refine ⟨fun hm => ⟨?_, ?_⟩, ⟨rfl, rfl⟩, fun hm => ?_⟩
  · exact
    ⟨fun h => by subst h; rw [processFrame_states_clipping, if_neg hm],
     fun h => by subst h; rw [processFrame_states_dynamics, if_neg hm],
     fun h => by subst h; rw [processFrame_states_truePeak, if_neg hm],
     fun h => by subst h; rw [processFrame_states_lufs, if_neg hm],
     fun h => by subst h; rw [processFrame_states_onset, if_neg hm],
     fun h => by subst h; rw [processFrame_states_snr, if_neg hm],
     fun h => by subst h; rw [processFrame_states_feedback, if_neg hm],
     fun h => by subst h; rw [processFrame_states_rt60, if_neg hm],
     fun h => by subst h; rw [processFrame_states_standingWaves, if_neg hm],
     fun h => by subst h; rw [processFrame_states_mfcc, if_neg hm]⟩
  · exact
    ⟨fun h => by subst h; rw [processFrame_result_rta, if_neg hm],
     fun h => by subst h; rw [processFrame_result_spectral, if_neg hm],
     fun h => by subst h; rw [processFrame_result_lufs, if_neg hm],
     fun h => by subst h; rw [processFrame_result_truePeak, if_neg hm],
     fun h => by subst h; rw [processFrame_result_dynamics, if_neg hm],
     fun h => by subst h; rw [processFrame_result_pitch, if_neg hm],
     fun h => by subst h; rw [processFrame_result_chroma, if_neg hm],
     fun h => by subst h; rw [processFrame_result_mfcc, if_neg hm],
     fun h => by subst h; rw [processFrame_result_onset, if_neg hm],
     fun h => by subst h; rw [processFrame_result_thd, if_neg hm],
     fun h => by subst h; rw [processFrame_result_snr, if_neg hm],
     fun h => by subst h; rw [processFrame_result_zcr, if_neg hm],
     fun h => by subst h; rw [processFrame_result_dcOffset, if_neg hm],
     fun h => by subst h; rw [processFrame_result_clipping, if_neg hm],
     fun h => by subst h; rw [processFrame_result_feedback, if_neg hm],
     fun h => by subst h; rw [processFrame_result_phase, if_neg hm],
     fun h => by subst h; rw [processFrame_result_rt60, if_neg hm],
     fun h => by subst h; rw [processFrame_result_inharmonicity, if_neg hm],
     fun h => by subst h; rw [processFrame_result_standingWaves, if_neg hm]⟩
  · exact
    ⟨fun h => by subst h; rw [processFrame_result_clipping, if_pos hm],
     fun h => by subst h; rw [processFrame_result_dynamics, if_pos hm],
     fun h => by subst h; rw [processFrame_result_truePeak, if_pos hm],
     fun h => by subst h; rw [processFrame_result_lufs, if_pos hm],
     fun h => by subst h; rw [processFrame_result_onset, if_pos hm],
     fun h => by subst h; rw [processFrame_result_snr, if_pos hm],
     fun h => by subst h; rw [processFrame_result_feedback, if_pos hm],
     fun h => by subst h; rw [processFrame_result_rt60, if_pos hm],
     fun h => by subst h; rw [processFrame_result_standingWaves, if_pos hm],
     fun h => by subst h; rw [processFrame_result_mfcc, if_pos hm]⟩

/-- Witness for C8 at a concrete engine (only the clipping module active,
fresh states) and a concrete frame: the lufs state slot and result field
stay untouched/absent, and the active clipping module resumes from the
stored state. -/
theorem C8_witness :
    let e0 : Engine := ⟨{"clipping"},
      ⟨none, none, none, none, none, none, none, none, none, none⟩, 0⟩
    let f0 : FrameInput := ⟨[], [], 48000, 4, 0⟩
    moduleStatePreserved "lufs" e0.states
      (OrdoAudio.processFrame e0 f0).2.states ∧
    resultOmits "lufs" (OrdoAudio.processFrame e0 f0).1 ∧
    resultResumes "clipping" e0 f0 (OrdoAudio.processFrame e0 f0).1 := by
  intro e0 f0
  have h1 := (C8_module_isolation e0 f0 "lufs").1 (by decide)
  have h2 := (C8_module_isolation e0 f0 "clipping").2.2 (by decide)
  exact ⟨h1.1, h1.2, h2⟩
